import Mathlib

/-!
Verification of the combat / progression core of the BaseCamp Chronicals
tower-defense repository.  Each section is a shallow embedding of one
TypeScript module; JavaScript numbers are modelled as rationals (ℚ),
JS `Map`s as association lists with insert-or-replace update, and code
that can throw as `Except`-valued functions.
-/

/-! ## ResourceManager (src/client/src/game/systems/ResourceManager.ts) -/

namespace RM

/-- The three resource balances (`private resources` field). -/
structure Resources where
  metal : ℚ
  energy : ℚ
  crystals : ℚ
  deriving Repr, DecidableEq

/-- A `Partial<Resources>` argument: each component may be absent. -/
structure Cost where
  metal : Option ℚ := none
  energy : Option ℚ := none
  crystals : Option ℚ := none
  deriving Repr, DecidableEq

/-- Embeds `hasResources(required)`: every component present in `required` is ≤ the
current balance (`Object.entries(required).every(...)`). -/
def hasResources (r : Resources) (required : Cost) : Bool :=
  (required.metal.all fun a => a ≤ r.metal) &&
  (required.energy.all fun a => a ≤ r.energy) &&
  (required.crystals.all fun a => a ≤ r.crystals)

/-- Subtracting one optional cost component (`forEach` body of `spendResources`;
an absent component is simply not iterated, so the balance is unchanged). -/
def subComp (b : ℚ) (c : Option ℚ) : ℚ :=
  match c with
  | none => b
  | some a => b - a

/-- Embeds `spendResources(cost)`: returns `false` without mutation when
`hasResources` fails, otherwise subtracts every given component and
returns `true`. -/
def spendResources (r : Resources) (cost : Cost) : Bool × Resources :=
  if hasResources r cost then
    (true, ⟨subComp r.metal cost.metal, subComp r.energy cost.energy,
            subComp r.crystals cost.crystals⟩)
  else
    (false, r)

/-- The predicate "some component of `cost` exceeds the corresponding balance" from the
claim, as a predicate. -/
def someComponentExceeds (r : Resources) (cost : Cost) : Prop :=
  (∃ a ∈ cost.metal, r.metal < a) ∨ (∃ a ∈ cost.energy, r.energy < a) ∨
  (∃ a ∈ cost.crystals, r.crystals < a)

lemma optAll_le_false_iff (b : ℚ) (c : Option ℚ) :
    (c.all fun a => a ≤ b) = false ↔ ∃ a ∈ c, b < a := by
  cases c <;> simp

lemma hasResources_false_iff (r : Resources) (cost : Cost) :
    hasResources r cost = false ↔ someComponentExceeds r cost := by
  unfold hasResources someComponentExceeds
  simp only [Bool.and_eq_false_iff, optAll_le_false_iff, or_assoc]

end RM

/-- Claim C1: for every cost and balance, `spendResources(cost)` returns
`false` and leaves the metal/energy/crystals balances unchanged whenever some
component of the cost exceeds the corresponding balance; otherwise it returns
`true`, every balance decreases by exactly the given component (absent
components unchanged), and — provided the balances start non-negative — no
balance is negative afterwards. -/
theorem C1_spendResources_atomic (r : RM.Resources) (cost : RM.Cost)
    (hm : 0 ≤ r.metal) (he : 0 ≤ r.energy) (hc : 0 ≤ r.crystals) :
    (RM.someComponentExceeds r cost → RM.spendResources r cost = (false, r)) ∧
    (¬ RM.someComponentExceeds r cost →
      (RM.spendResources r cost).1 = true ∧
      (RM.spendResources r cost).2.metal = RM.subComp r.metal cost.metal ∧
      (RM.spendResources r cost).2.energy = RM.subComp r.energy cost.energy ∧
      (RM.spendResources r cost).2.crystals = RM.subComp r.crystals cost.crystals ∧
      0 ≤ (RM.spendResources r cost).2.metal ∧
      0 ≤ (RM.spendResources r cost).2.energy ∧
      0 ≤ (RM.spendResources r cost).2.crystals) := by
  constructor
  · intro hex
    have hfalse : RM.hasResources r cost = false :=
      (RM.hasResources_false_iff r cost).mpr hex
    simp [RM.spendResources, hfalse]
  · intro hnex
    have htrue : RM.hasResources r cost = true := by
      rcases h : RM.hasResources r cost with _ | _
      · exact absurd ((RM.hasResources_false_iff r cost).mp h) hnex
      · rfl
    have hm2 : ∀ a ∈ cost.metal, a ≤ r.metal := by
      intro a ha
      by_contra hlt
      exact hnex (Or.inl ⟨a, ha, lt_of_not_le hlt⟩)
    have he2 : ∀ a ∈ cost.energy, a ≤ r.energy := by
      intro a ha
      by_contra hlt
      exact hnex (Or.inr (Or.inl ⟨a, ha, lt_of_not_le hlt⟩))
    have hc2 : ∀ a ∈ cost.crystals, a ≤ r.crystals := by
      intro a ha
      by_contra hlt
      exact hnex (Or.inr (Or.inr ⟨a, ha, lt_of_not_le hlt⟩))
    refine ⟨by simp [RM.spendResources, htrue], ?_, ?_, ?_, ?_, ?_, ?_⟩ <;>
      simp [RM.spendResources, htrue, RM.subComp] <;>
      first
      | (cases hx : cost.metal with
          | none => simpa [RM.subComp, hx] using hm
          | some a => simpa [RM.subComp, hx] using sub_nonneg.mpr (hm2 a hx))
      | (cases hx : cost.energy with
          | none => simpa [RM.subComp, hx] using he
          | some a => simpa [RM.subComp, hx] using sub_nonneg.mpr (he2 a hx))
      | (cases hx : cost.crystals with
          | none => simpa [RM.subComp, hx] using hc
          | some a => simpa [RM.subComp, hx] using sub_nonneg.mpr (hc2 a hx))

/-- Witness for C1 at the very scenario given in the spec: balances `{200,100,50}`;
`spend({metal:250})` fails and leaves the state unchanged, while
`spend({metal:50, energy:30})` succeeds with balances `{150,70,50}`. -/
theorem C1_spendResources_atomic_witness :
    RM.spendResources ⟨200, 100, 50⟩ ⟨some 250, none, none⟩ = (false, ⟨200, 100, 50⟩) ∧
    (RM.spendResources ⟨200, 100, 50⟩ ⟨some 50, some 30, none⟩).1 = true ∧
    (RM.spendResources ⟨200, 100, 50⟩ ⟨some 50, some 30, none⟩).2.metal = 150 := by
  have h1 := C1_spendResources_atomic ⟨200, 100, 50⟩ ⟨some 250, none, none⟩
    (by norm_num) (by norm_num) (by norm_num)
  have h2 := C1_spendResources_atomic ⟨200, 100, 50⟩ ⟨some 50, some 30, none⟩
    (by norm_num) (by norm_num) (by norm_num)
  refine ⟨h1.1 (Or.inl ⟨250, rfl, by norm_num⟩), ?_, ?_⟩
  · exact (h2.2 (by simp [RM.someComponentExceeds]; norm_num)).1
  · have := (h2.2 (by simp [RM.someComponentExceeds]; norm_num)).2.1
    rw [this]
    norm_num [RM.subComp]

/-! ## EnemySystem (src/client/src/game/systems/EnemySystem.ts) -/

namespace ES

inductive EnemyType where
  | basic | fast | tank | shielded | boss
  deriving Repr, DecidableEq

structure Abilities where
  regeneration : Bool := false
  shieldRecharge : Bool := false
  splitOnDeath : Bool := false
  callReinforcements : Bool := false
  deriving Repr, DecidableEq

/-- Per-type stat template (`EnemyStats`). -/
structure EnemyStats where
  health : ℚ
  speed : ℚ
  armor : ℚ
  shield : Option ℚ := none
  value : ℚ
  damage : ℚ
  size : ℚ
  abilities : Abilities := {}
  deriving Repr, DecidableEq

/-- Embeds `getEnemyStats(type)` — the exact stat table from the source. -/
def getEnemyStats : EnemyType → EnemyStats
  | .basic => { health := 100, speed := 1, armor := 0, value := 10, damage := 10, size := 1 }
  | .fast => { health := 60, speed := 2, armor := 0, value := 15, damage := 5, size := 8/10 }
  | .tank => { health := 300, speed := 1/2, armor := 5, value := 25, damage := 20, size := 12/10 }
  | .shielded =>
    { health := 150, speed := 8/10, armor := 2, shield := some 100, value := 30, damage := 15,
      size := 1, abilities := { shieldRecharge := true } }
  | .boss =>
    { health := 1000, speed := 3/10, armor := 10, shield := some 500, value := 100, damage := 50,
      size := 2,
      abilities := { regeneration := true, shieldRecharge := true, callReinforcements := true } }

/-- An enemy instance (sprite fields reduced to its position). -/
structure Enemy where
  id : String
  etype : EnemyType
  stats : EnemyStats
  currentHealth : ℚ
  currentShield : ℚ
  pathIndex : ℕ
  pathProgress : ℚ
  isActive : Bool
  x : ℚ
  y : ℚ
  deriving Repr, DecidableEq

/-- A path, reduced to the data `spawnEnemy` reads: its start point. -/
structure Path where
  startX : ℚ
  startY : ℚ
  deriving Repr, DecidableEq

/-- The `EnemySystem` fields touched by spawning. -/
structure SystemState where
  paths : List Path
  enemies : List (String × Enemy)
  enemyCount : ℕ
  defeatedCount : ℕ
  deriving Repr, DecidableEq

/-- The runtime error raised by `this.paths[pathIndex].getStartPoint()` when
`pathIndex` is out of range (`this.paths[pathIndex]` is `undefined`). -/
inductive JsError where
  | typeError
  deriving Repr, DecidableEq

/-- Embeds `spawnEnemy(type, pathIndex)`: reads `this.paths[pathIndex]` and calls
`getStartPoint()` on it — which throws a `TypeError` when the index is out of
range — then builds the enemy record and registers it.  There is no
bounds-check in the source. -/
def spawnEnemy (sys : SystemState) (etype : EnemyType) (pathIndex : ℕ) :
    Except JsError (Enemy × SystemState) :=
  match sys.paths.get? pathIndex with
  | none => .error .typeError
  | some path =>
    let stats := getEnemyStats etype
    let enemy : Enemy :=
      { id := "enemy_" ++ toString sys.enemyCount
        etype := etype
        stats := stats
        currentHealth := stats.health
        currentShield := stats.shield.getD 0
        pathIndex := pathIndex
        pathProgress := 0
        isActive := true
        x := path.startX
        y := path.startY }
    .ok (enemy,
      { sys with
        enemies := sys.enemies ++ [(enemy.id, enemy)]
        enemyCount := sys.enemyCount + 1 })

/-- Embeds `damageEnemy(enemy, damage)` — the pure shield/armor/health arithmetic.
The shield absorbs first; an early return skips the health stage when the
shield absorbed everything; otherwise armor is subtracted from the remainder
with a floor of 1.  (Death side effects — split spawns, removal scheduling,
reward events — happen at system level and do not change these numbers; the
`isActive` flag flip of `handleEnemyDeath` is included.) -/
def damageStages (enemy : Enemy) (damage : ℚ) : Enemy :=
  if 0 < enemy.currentShield then
    let shieldDamage := min enemy.currentShield damage
    let enemy1 := { enemy with currentShield := enemy.currentShield - shieldDamage }
    let damage1 := damage - shieldDamage
    if damage1 ≤ 0 then enemy1
    else
      let effectiveDamage := max 1 (damage1 - enemy.stats.armor)
      { enemy1 with currentHealth := enemy1.currentHealth - effectiveDamage }
  else
    let effectiveDamage := max 1 (damage - enemy.stats.armor)
    { enemy with currentHealth := enemy.currentHealth - effectiveDamage }

/-- The trailing `if (enemy.currentHealth <= 0) handleEnemyDeath(enemy)`. -/
def damageEnemy (enemy : Enemy) (damage : ℚ) : Enemy :=
  if (damageStages enemy damage).currentHealth ≤ 0 then
    { damageStages enemy damage with isActive := false }
  else damageStages enemy damage

lemma damageEnemy_currentShield (enemy : Enemy) (damage : ℚ) :
    (damageEnemy enemy damage).currentShield = (damageStages enemy damage).currentShield := by
  unfold damageEnemy
  split <;> rfl

lemma damageEnemy_currentHealth (enemy : Enemy) (damage : ℚ) :
    (damageEnemy enemy damage).currentHealth = (damageStages enemy damage).currentHealth := by
  unfold damageEnemy
  split <;> rfl

end ES

/-- Claim C3: `damageEnemy` depletes the shield before health: for every enemy
with `currentShield > 0` and every damage amount, the shield absorbs
`min(shield, amount)`, health is reduced only when the amount exceeds the
shield, and the remainder carried into the health/armor stage is exactly
`amount - shieldAbsorbed = amount - shield`. -/
theorem C3_shield_before_health (e : ES.Enemy) (amount : ℚ)
    (hs : 0 < e.currentShield) :
    (ES.damageEnemy e amount).currentShield =
      e.currentShield - min e.currentShield amount ∧
    (amount ≤ e.currentShield →
      (ES.damageEnemy e amount).currentHealth = e.currentHealth) ∧
    (e.currentShield < amount →
      (ES.damageEnemy e amount).currentHealth =
        e.currentHealth - max 1 ((amount - e.currentShield) - e.stats.armor)) := by
  rw [ES.damageEnemy_currentShield, ES.damageEnemy_currentHealth]
  unfold ES.damageStages
  rcases le_or_lt amount e.currentShield with hle | hlt
  · have hmin : min e.currentShield amount = amount := min_eq_right hle
    have hz : amount - min e.currentShield amount ≤ 0 := by
      rw [hmin]; simp
    refine ⟨?_, fun _ => ?_, fun h => absurd h (not_lt_of_le hle)⟩ <;>
      simp [hs, hz]
  · have hmin : min e.currentShield amount = e.currentShield := min_eq_left hlt.le
    have hz : ¬ amount - min e.currentShield amount ≤ 0 := by
      rw [hmin]
      simpa using hlt
    refine ⟨?_, fun h => absurd hlt (not_lt_of_le h), fun _ => ?_⟩ <;>
      simp [hs, hz, hmin, hlt.not_le]

/-- Witness for C3: the shielded template (shield 100, armor 2) hit for 130
keeps `shield := 0` and loses `max 1 (130 − 100 − 2) = 28` health, while a hit
for 60 leaves health untouched. -/
theorem C3_shield_before_health_witness :
    (ES.damageEnemy
      { id := "e", etype := .shielded, stats := ES.getEnemyStats .shielded,
        currentHealth := 150, currentShield := 100, pathIndex := 0,
        pathProgress := 0, isActive := true, x := 0, y := 0 } 130).currentShield = 0 ∧
    (ES.damageEnemy
      { id := "e", etype := .shielded, stats := ES.getEnemyStats .shielded,
        currentHealth := 150, currentShield := 100, pathIndex := 0,
        pathProgress := 0, isActive := true, x := 0, y := 0 } 130).currentHealth = 122 ∧
    (ES.damageEnemy
      { id := "e", etype := .shielded, stats := ES.getEnemyStats .shielded,
        currentHealth := 150, currentShield := 100, pathIndex := 0,
        pathProgress := 0, isActive := true, x := 0, y := 0 } 60).currentHealth = 150 := by
  have h130 := C3_shield_before_health
    { id := "e", etype := .shielded, stats := ES.getEnemyStats .shielded,
      currentHealth := 150, currentShield := 100, pathIndex := 0,
      pathProgress := 0, isActive := true, x := 0, y := 0 } 130 (by norm_num)
  have h60 := C3_shield_before_health
    { id := "e", etype := .shielded, stats := ES.getEnemyStats .shielded,
      currentHealth := 150, currentShield := 100, pathIndex := 0,
      pathProgress := 0, isActive := true, x := 0, y := 0 } 60 (by norm_num)
  refine ⟨?_, ?_, ?_⟩
  · rw [h130.1]; norm_num
  · rw [h130.2.2 (by norm_num)]
    norm_num [ES.getEnemyStats]
  · exact h60.2.1 (by norm_num)

/-- A concrete `EnemySystem` with two configured paths and no enemies, used to
evaluate `spawnEnemy` at an out-of-range `pathIndex`. -/
def twoPathSystem : ES.SystemState :=
  { paths := [⟨0, 0⟩, ⟨100, 0⟩], enemies := [], enemyCount := 0, defeatedCount := 0 }

/-- Counterexample to claim C8: with two configured paths,
`spawnEnemy(BASIC, 5)` is *not* a silent no-op — `this.paths[5]` is
`undefined`, so `path.getStartPoint()` throws a `TypeError` instead of
returning normally. -/
theorem C8_spawnEnemy_counterexample :
    (ES.spawnEnemy twoPathSystem .basic 5).isOk = false := by
  decide

/-- Claim C8 amended: for every enemy type and every `pathIndex` outside the
range of the configured paths array, `spawnEnemy` throws a `TypeError`
(dereferencing the `undefined` path) rather than silently no-opping; the
throw happens before any mutation, so no enemy is registered and the registry
state is unchanged. -/
theorem C8_spawnEnemy_out_of_range (sys : ES.SystemState) (etype : ES.EnemyType)
    (pathIndex : ℕ) (hout : sys.paths.length ≤ pathIndex) :
    ES.spawnEnemy sys etype pathIndex = .error .typeError := by
  unfold ES.spawnEnemy
  rw [List.get?_eq_none.mpr hout]

/-- Witness for the amended C8 at the concrete two-path system. -/
theorem C8_spawnEnemy_out_of_range_witness :
    ES.spawnEnemy twoPathSystem .basic 5 = .error .typeError :=
  C8_spawnEnemy_out_of_range twoPathSystem .basic 5 (by decide)

/-! ## CombatSystem (src/client/src/game/systems/CombatSystem.ts) -/

namespace CS

/-- A status effect record (`StatusEffect` interface). -/
structure StatusEffect where
  type : String
  duration : ℚ
  strength : ℚ
  startTime : ℚ
  deriving Repr, DecidableEq

/-- The `CombatStats` fields the damage arithmetic reads. -/
structure CombatStats where
  maxHealth : ℚ
  health : ℚ
  defense : ℚ
  deriving Repr, DecidableEq

/-- A registered `Damageable`: its stats, its sprite center, and its
`activeEffects` map (assoc list keyed like the JS `Map<string, StatusEffect>`). -/
structure Entity where
  stats : CombatStats
  x : ℚ
  y : ℚ
  activeEffects : List (String × StatusEffect)
  deriving Repr, DecidableEq

/-- First-match lookup in an assoc list (JS `Map.get` / `Map.has`; keys are
unique). -/
def lookupBy {α : Type} (l : List (String × α)) (k : String) : Option α :=
  match l with
  | [] => none
  | p :: rest => if p.1 = k then some p.2 else lookupBy rest k

/-- JS `Map.set`: replace the binding when present, append when absent. -/
def mapSet {α : Type} (l : List (String × α)) (k : String) (v : α) :
    List (String × α) :=
  if (lookupBy l k).isSome then l.map fun p => if p.1 = k then (k, v) else p
  else l ++ [(k, v)]

/-- The `CombatSystem` state: the entity registry, the multiplier fields, and the
collaborator queries the damage/status paths make
(`AchievementChallenges.isRewardActive(`damage`|`combo`)` with the matching
`getRewardMultiplier`, and `RewardCombinations.isComboActive(`grand_master`)`)
modelled as fields of the state. -/
structure State where
  entities : List (String × Entity)
  frozenDamageMultiplier : ℚ
  statusSpreadRadius : ℚ
  globalEffectMultiplier : ℚ
  comboDurationMultiplier : ℚ
  damageRewardActive : Bool
  damageRewardMultiplier : ℚ
  comboRewardActive : Bool
  comboRewardMultiplier : ℚ
  grandMasterActive : Bool
  now : ℚ
  brittleMultiplier : ℚ := 3/2
  explosionRadiusMultiplier : ℚ := 1
  frozenDurationMultiplier : ℚ := 3/2
  deriving Repr, DecidableEq

/-- Replace the registered entity bound to `id`. -/
def setEntity (st : State) (id : String) (e : Entity) : State :=
  { st with entities := st.entities.map fun p => if p.1 = id then (id, e) else p }

/-- The damage value computed by `damage(targetId, amount, ignoreDefense)`
(lines 554–597): challenge-reward damage multiplier, then the frozen
multiplier gated on `activeEffects.has(`slow`) && activeEffects.has(`stun`)`
(note: membership of the literal keys ``slow``/``stun``), then the global
effect multiplier, then the global effect multiplier a second time under the
`grand_master` combo, then defense subtraction floored at 1 unless ignored. -/
def actualDamage (st : State) (entity : Entity) (amount : ℚ)
    (ignoreDefense : Bool) : ℚ :=
  let damageMultiplier : ℚ :=
    if st.damageRewardActive then st.damageRewardMultiplier else 1
  let damageMultiplier :=
    if (lookupBy entity.activeEffects "slow").isSome ∧
        (lookupBy entity.activeEffects "stun").isSome then
      damageMultiplier * st.frozenDamageMultiplier
    else damageMultiplier
  let damageMultiplier := damageMultiplier * st.globalEffectMultiplier
  let finalDamage := amount * damageMultiplier
  let finalDamage :=
    if st.grandMasterActive then finalDamage * st.globalEffectMultiplier
    else finalDamage
  if ignoreDefense then finalDamage else max 1 (finalDamage - entity.stats.defense)

/-- The state update done by `damage`: clamp health at 0, destroy (remove)
the entity when health reaches 0. -/
def damage (st : State) (targetId : String) (amount : ℚ)
    (ignoreDefense : Bool) : State :=
  match lookupBy st.entities targetId with
  | none => st
  | some entity =>
    let newHealth := max 0 (entity.stats.health - actualDamage st entity amount ignoreDefense)
    if newHealth ≤ 0 then
      { st with entities := st.entities.filter fun p => ¬ p.1 = targetId }
    else
      setEntity st targetId
        { entity with stats := { entity.stats with health := newHealth } }

/-- Embeds `applyStatusEffect(targetId, type, strength, duration)` (lines 434–491),
with an explicit recursion-depth fuel.  The source recursion has no visited
set or hop cap; `none` marks a run that exhausted its fuel, so the real call
terminates at a configuration iff the fuelled version returns `some` for some
fuel.  The `this.entities.forEach` spread loop is the `foldlM` over the
current entity ids: every *other* entity within the spread radius receives
the effect at 70% strength and 70% duration, recursively.  (`distance ≤
radius` is embedded as `distance² ≤ radius²`, equivalent for nonnegative
radii; the source reassigns the `finalDuration`/`strength` locals under the
`grand_master` combo, whose value semantics is embedded.) -/
def applyStatusEffectFuel : ℕ → State → String → String → ℚ → ℚ → Option State
  | 0, _, _, _, _, _ => none
  | fuel+1, st, targetId, ty, strength, duration =>
    match lookupBy st.entities targetId with
    | none => some st
    | some entity =>
      let durationMultiplier :=
        if st.comboRewardActive then
          st.comboDurationMultiplier * st.comboRewardMultiplier
        else st.comboDurationMultiplier
      let finalDuration := duration * durationMultiplier
      let strength2 :=
        if st.grandMasterActive then strength * st.globalEffectMultiplier else strength
      let finalDuration2 :=
        if st.grandMasterActive then finalDuration * st.globalEffectMultiplier
        else finalDuration
      let st1 := setEntity st targetId
        { entity with
          activeEffects := mapSet entity.activeEffects (ty ++ "_" ++ targetId)
            { type := ty, duration := finalDuration2, strength := strength2,
              startTime := st.now } }
      if 0 < st1.statusSpreadRadius then
        (st1.entities.map Prod.fst).foldlM
          (fun stAcc nearbyId =>
            if nearbyId = targetId then some stAcc
            else
              match lookupBy stAcc.entities nearbyId with
              | none => some stAcc
              | some nearby =>
                if (entity.x - nearby.x) ^ 2 + (entity.y - nearby.y) ^ 2 ≤
                    stAcc.statusSpreadRadius ^ 2 then
                  applyStatusEffectFuel fuel stAcc nearbyId ty
                    (strength2 * (7/10)) (finalDuration2 * (7/10))
                else some stAcc)
          st1
      else some st1

end CS

/-- Claim C2: with `ignoreDefense = false` the applied damage is at least 1,
no matter how large the defense is: in `CombatSystem.damage` the computed
`actualDamage` is `max(1, finalDamage − defense) ≥ 1` for every state, entity
and amount, and in `EnemySystem.damageEnemy` whenever the amount reaches the
armor stage (no shield, or damage exceeding the shield) the health drops by
`max(1, remainder − armor) ≥ 1`. -/
theorem C2_damage_floor_one :
    (∀ (st : CS.State) (e : CS.Entity) (amount : ℚ),
      1 ≤ CS.actualDamage st e amount false) ∧
    (∀ (e : ES.Enemy) (d : ℚ), e.currentShield ≤ 0 →
      (ES.damageEnemy e d).currentHealth ≤ e.currentHealth - 1) ∧
    (∀ (e : ES.Enemy) (d : ℚ), 0 < e.currentShield → e.currentShield < d →
      (ES.damageEnemy e d).currentHealth ≤ e.currentHealth - 1) := by
  refine ⟨?_, ?_, ?_⟩
  · intro st e amount
    unfold CS.actualDamage
    simp only [Bool.false_eq_true, if_false]
    exact le_max_left _ _
  · intro e d hs
    rw [ES.damageEnemy_currentHealth]
    unfold ES.damageStages
    rw [if_neg (not_lt_of_le hs)]
    simp only
    have h1 : (1 : ℚ) ≤ max 1 (d - e.stats.armor) := le_max_left _ _
    linarith
  · intro e d hs hlt
    rw [ES.damageEnemy_currentHealth]
    unfold ES.damageStages
    rw [if_pos hs]
    have hmin : min e.currentShield d = e.currentShield := min_eq_left hlt.le
    rw [if_neg (by rw [hmin]; simpa using hlt)]
    simp only
    have h1 : (1 : ℚ) ≤ max 1 (d - min e.currentShield d - e.stats.armor) :=
      le_max_left _ _
    linarith

/-- Witness for C2, including the scenario given in the spec: a tank (health 300,
armor 5) hit for 10 ends at `300 − max(1, 10 − 5) = 295`. -/
theorem C2_damage_floor_one_witness :
    1 ≤ CS.actualDamage
        { entities := [], frozenDamageMultiplier := 1, statusSpreadRadius := 0,
          globalEffectMultiplier := 1, comboDurationMultiplier := 1,
          damageRewardActive := false, damageRewardMultiplier := 1,
          comboRewardActive := false, comboRewardMultiplier := 1,
          grandMasterActive := false, now := 0 }
        { stats := { maxHealth := 100, health := 100, defense := 1000000 },
          x := 0, y := 0, activeEffects := [] } 10 false ∧
    (ES.damageEnemy
      { id := "t", etype := .tank, stats := ES.getEnemyStats .tank,
        currentHealth := 300, currentShield := 0, pathIndex := 0,
        pathProgress := 0, isActive := true, x := 0, y := 0 } 10).currentHealth ≤ 299 := by
  constructor
  · exact C2_damage_floor_one.1 _ _ 10
  · have h := C2_damage_floor_one.2.1
      { id := "t", etype := .tank, stats := ES.getEnemyStats .tank,
        currentHealth := 300, currentShield := 0, pathIndex := 0,
        pathProgress := 0, isActive := true, x := 0, y := 0 } 10 (by norm_num)
    have h299 : (300 : ℚ) - 1 = 299 := by norm_num
    rwa [h299] at h

/-- The predicate "a slow/stun effect is active on the target" in the sense of the spec:
some *effect record* of that type is in the map (this is how the rest of the
code, e.g. `checkStatusCombos`, reads the map). -/
def hasEffectType (e : CS.Entity) (ty : String) : Bool :=
  e.activeEffects.any fun p => p.2.type = ty

/-- Modelled from the wording of the claim (spec §4.7 damage formula): final damage
`= amount × challenge damage multiplier × frozen multiplier (iff slow and stun
are both active on the target) × global effect multiplier`. -/
def claimFinalDamage (st : CS.State) (e : CS.Entity) (amount : ℚ) : ℚ :=
  amount * (if st.damageRewardActive then st.damageRewardMultiplier else 1) *
    (if hasEffectType e "slow" ∧ hasEffectType e "stun" then
      st.frozenDamageMultiplier
    else 1) *
    st.globalEffectMultiplier

/-- C4 failing input: one registered entity, global effect multiplier 3/2 (a
completed damage/combo challenge reward), `grand_master` combo active, no
damage challenge reward, default `frozenDamageMultiplier = 1.0`. -/
def st0C4 : CS.State :=
  { entities :=
      [("e1", { stats := { maxHealth := 100, health := 100, defense := 0 },
                x := 0, y := 0, activeEffects := [] })],
    frozenDamageMultiplier := 1, statusSpreadRadius := 0,
    globalEffectMultiplier := 3/2, comboDurationMultiplier := 1,
    damageRewardActive := false, damageRewardMultiplier := 1,
    comboRewardActive := false, comboRewardMultiplier := 1,
    grandMasterActive := true, now := 0 }

/-- The entity after `applyStatusEffect(`e1`,`slow`,0.5,2000)` and
`applyStatusEffect(`e1`,`stun`,1,1000)`: both effects stored under the
composite keys `slow_e1` / `stun_e1`. -/
def ent2C4 : CS.Entity :=
  { stats := { maxHealth := 100, health := 100, defense := 0 },
    x := 0, y := 0,
    activeEffects :=
      [("slow_e1", { type := "slow", duration := 3000, strength := 3/4, startTime := 0 }),
       ("stun_e1", { type := "stun", duration := 1500, strength := 3/2, startTime := 0 })] }

/-- Claim C4 is violated by the code (code bug): after applying a slow and a
stun effect through `applyStatusEffect`, both effect types are active on the
target, yet `damage` never applies `frozenDamageMultiplier` — it tests
`activeEffects.has(`slow`)`/`has(`stun`)` while the effects are keyed
`slow_e1`/`stun_e1` — and when the `grand_master` combo is active it
multiplies by `globalEffectMultiplier` twice.  Concretely, `damage(`e1`,100)`
deals 225 while the claimed formula gives 150, and the result is independent
of `frozenDamageMultiplier`. -/
theorem C4_damage_formula_bug :
    CS.applyStatusEffectFuel 1 st0C4 "e1" "slow" (1/2) 2000 =
      some (CS.setEntity st0C4 "e1"
        { stats := { maxHealth := 100, health := 100, defense := 0 },
          x := 0, y := 0,
          activeEffects :=
            [("slow_e1", { type := "slow", duration := 3000, strength := 3/4,
                           startTime := 0 })] }) ∧
    CS.applyStatusEffectFuel 1
        (CS.setEntity st0C4 "e1"
          { stats := { maxHealth := 100, health := 100, defense := 0 },
            x := 0, y := 0,
            activeEffects :=
              [("slow_e1", { type := "slow", duration := 3000, strength := 3/4,
                             startTime := 0 })] })
        "e1" "stun" 1 1000 = some (CS.setEntity st0C4 "e1" ent2C4) ∧
    hasEffectType ent2C4 "slow" = true ∧
    hasEffectType ent2C4 "stun" = true ∧
    CS.lookupBy ent2C4.activeEffects "slow" = none ∧
    CS.actualDamage st0C4 ent2C4 100 false = 225 ∧
    (∀ f : ℚ,
      CS.actualDamage { st0C4 with frozenDamageMultiplier := f } ent2C4 100 false = 225) ∧
    claimFinalDamage st0C4 ent2C4 100 = 150 ∧ (225 : ℚ) ≠ 150 := by
  refine ⟨?_, ?_, ?_, ?_, ?_, ?_, ?_, ?_, ?_⟩
  · simp [CS.applyStatusEffectFuel, CS.setEntity, CS.mapSet, CS.lookupBy, st0C4]
    norm_num
  · simp [CS.applyStatusEffectFuel, CS.setEntity, CS.mapSet, CS.lookupBy, st0C4, ent2C4]
    norm_num
  · simp [hasEffectType, ent2C4]
  · simp [hasEffectType, ent2C4]
  · simp [CS.lookupBy, ent2C4]
  · simp [CS.actualDamage, CS.lookupBy, ent2C4, st0C4]
    norm_num
  · intro f
    simp [CS.actualDamage, CS.lookupBy, ent2C4, st0C4]
    norm_num
  · simp [claimFinalDamage, hasEffectType, ent2C4, st0C4]
    norm_num
  · norm_num

/-- A bare entity at the origin with no active effects. -/
def entC9 : CS.Entity :=
  { stats := { maxHealth := 100, health := 100, defense := 0 },
    x := 0, y := 0, activeEffects := [] }

/-- Two registered entities at the same position and an active status-spread
radius of 25 (as granted by reward combinations). -/
def cfgTwoC9 : CS.State :=
  { entities := [("A", entC9), ("B", entC9)],
    frozenDamageMultiplier := 1, statusSpreadRadius := 25,
    globalEffectMultiplier := 1, comboDurationMultiplier := 1,
    damageRewardActive := false, damageRewardMultiplier := 1,
    comboRewardActive := false, comboRewardMultiplier := 1,
    grandMasterActive := false, now := 0 }

/-- The same system with no status-spread radius and a single entity. -/
def cfgNoSpreadC9 : CS.State :=
  { entities := [("A", entC9)],
    frozenDamageMultiplier := 1, statusSpreadRadius := 0,
    globalEffectMultiplier := 1, comboDurationMultiplier := 1,
    damageRewardActive := false, damageRewardMultiplier := 1,
    comboRewardActive := false, comboRewardMultiplier := 1,
    grandMasterActive := false, now := 0 }

/-- In any state shaped like `cfgTwoC9` (spread radius 25, exactly the
entities `A` and `B`, both at the origin), `applyStatusEffect` on either
entity exhausts every finite fuel: each call spreads to the other entity,
which spreads back, with no visited set or hop cap to stop it. -/
lemma applyStatusEffectFuel_twoEntities_none (fuel : ℕ) :
    ∀ (st : CS.State) (ty : String) (s d : ℚ) (tid : String),
      st.statusSpreadRadius = 25 →
      (∃ ea eb : CS.Entity, st.entities = [("A", ea), ("B", eb)] ∧
        ea.x = 0 ∧ ea.y = 0 ∧ eb.x = 0 ∧ eb.y = 0) →
      (tid = "A" ∨ tid = "B") →
      CS.applyStatusEffectFuel fuel st tid ty s d = none := by
  induction fuel with
  | zero => intro st ty s d tid _ _ _; rfl
  | succ n ih =>
    rintro st ty s d tid hr ⟨ea, eb, hent, hax, hay, hbx, hby⟩ htid
    rcases htid with h | h <;> subst h
    · have hnone : ∀ (st2 : CS.State) (s2 d2 : ℚ),
          st2.statusSpreadRadius = 25 →
          (∃ ea2 eb2 : CS.Entity, st2.entities = [("A", ea2), ("B", eb2)] ∧
            ea2.x = 0 ∧ ea2.y = 0 ∧ eb2.x = 0 ∧ eb2.y = 0) →
          CS.applyStatusEffectFuel n st2 "B" ty s2 d2 = none := by
        intro st2 s2 d2 h1 h2
        exact ih st2 ty s2 d2 "B" h1 h2 (Or.inr rfl)
      simp only [CS.applyStatusEffectFuel, hent, CS.lookupBy, CS.setEntity,
        CS.mapSet, hr, hax, hay, hbx, hby, List.foldlM, List.map,
        String.reduceEq, reduceIte]
      norm_num
      simp only [CS.lookupBy, String.reduceEq, reduceIte, hbx, hby]
      rw [if_pos (by norm_num)]
      rw [hnone _ _ _ (by simp) ⟨_, _, rfl, rfl, rfl, hbx, hby⟩]
    · have hnone : ∀ (st2 : CS.State) (s2 d2 : ℚ),
          st2.statusSpreadRadius = 25 →
          (∃ ea2 eb2 : CS.Entity, st2.entities = [("A", ea2), ("B", eb2)] ∧
            ea2.x = 0 ∧ ea2.y = 0 ∧ eb2.x = 0 ∧ eb2.y = 0) →
          CS.applyStatusEffectFuel n st2 "A" ty s2 d2 = none := by
        intro st2 s2 d2 h1 h2
        exact ih st2 ty s2 d2 "A" h1 h2 (Or.inl rfl)
      simp only [CS.applyStatusEffectFuel, hent, CS.lookupBy, CS.setEntity,
        CS.mapSet, hr, hax, hay, hbx, hby, List.foldlM, List.map,
        String.reduceEq, reduceIte]
      norm_num
      rw [hnone _ _ _ (by simp) ⟨_, _, rfl, hax, hay, rfl, rfl⟩]

/-- Counterexample to claim C9: at the concrete two-entity configuration
`cfgTwoC9` (positive spread radius 25, entities `A` and `B` both at the
origin), `applyStatusEffect(`A`,`burn`,5,3000)` does *not* terminate: the
call spreads to `B`, whose call spreads back to `A`, for ever — no fuel bound
is ever enough. -/
theorem C9_applyStatusEffect_counterexample :
    ¬ ∃ fuel : ℕ,
      (CS.applyStatusEffectFuel fuel cfgTwoC9 "A" "burn" 5 3000).isSome = true := by
  rintro ⟨fuel, hfuel⟩
  rw [applyStatusEffectFuel_twoEntities_none fuel cfgTwoC9 "burn" 5 3000 "A" rfl
    ⟨entC9, entC9, rfl, rfl, rfl, rfl, rfl⟩ (Or.inl rfl)] at hfuel
  simp at hfuel

namespace CS

lemma sq_sub_comm (a b : ℚ) : (a - b) ^ 2 = (b - a) ^ 2 := by ring

lemma setEntity_statusSpreadRadius (st : State) (k : String) (v : Entity) :
    (setEntity st k v).statusSpreadRadius = st.statusSpreadRadius := rfl

lemma lookupBy_mapSetKey_self {α : Type} (k : String) (v : α) :
    ∀ (l : List (String × α)) (a : α), lookupBy l k = some a →
      lookupBy (l.map fun p => if p.1 = k then (k, v) else p) k = some v := by
  intro l
  induction l with
  | nil => intro a h; simp [lookupBy] at h
  | cons p rest ih =>
    intro a h
    by_cases hp : p.1 = k
    · simp only [List.map_cons, if_pos hp, lookupBy]
      simp
    · simp only [lookupBy, if_neg hp] at h
      simp only [List.map_cons, if_neg hp, lookupBy]
      exact ih a h

lemma lookupBy_mapSetKey_other {α : Type} (k k2 : String) (v : α) (hne : ¬ k2 = k) :
    ∀ l : List (String × α),
      lookupBy (l.map fun p => if p.1 = k then (k, v) else p) k2 = lookupBy l k2 := by
  intro l
  induction l with
  | nil => rfl
  | cons p rest ih =>
    by_cases hp : p.1 = k
    · simp only [List.map_cons, if_pos hp, lookupBy] at ih ⊢
      rw [if_neg (fun h => hne h.symm), if_neg (fun h => hne (h.symm.trans hp))]
      exact ih
    · simp only [List.map_cons, if_neg hp, lookupBy] at ih ⊢
      by_cases h2 : p.1 = k2
      · rw [if_pos h2, if_pos h2]
      · rw [if_neg h2, if_neg h2]
        exact ih

/-- The entity bound to `k` after `setEntity st k v` is `v` (the key was
present). -/
lemma lookupBy_setEntity_self (k : String) (v : Entity) (st : State)
    (a : Entity) (h : lookupBy st.entities k = some a) :
    lookupBy (setEntity st k v).entities k = some v :=
  lookupBy_mapSetKey_self k v st.entities a h

/-- `setEntity` leaves every other binding unchanged. -/
lemma lookupBy_setEntity_other (k k2 : String) (v : Entity) (hne : ¬ k2 = k)
    (st : State) :
    lookupBy (setEntity st k v).entities k2 = lookupBy st.entities k2 :=
  lookupBy_mapSetKey_other k k2 v hne st.entities

lemma map_fst_mapSetKey {α : Type} (k : String) (v : α) :
    ∀ l : List (String × α),
      (l.map fun p => if p.1 = k then (k, v) else p).map Prod.fst =
        l.map Prod.fst := by
  intro l
  induction l with
  | nil => rfl
  | cons p rest ih =>
    by_cases hp : p.1 = k
    · simp [hp, ih]
    · simp [hp, ih]

/-- `setEntity` preserves the list of registered entity ids. -/
lemma map_fst_setEntity (st : State) (k : String) (v : Entity) :
    (setEntity st k v).entities.map Prod.fst = st.entities.map Prod.fst :=
  map_fst_mapSetKey k v st.entities

lemma mem_map_fst_of_lookupBy {α : Type} (k : String) :
    ∀ (l : List (String × α)) (a : α), lookupBy l k = some a →
      k ∈ l.map Prod.fst := by
  intro l
  induction l with
  | nil => intro a h; simp [lookupBy] at h
  | cons p rest ih =>
    intro a h
    by_cases hp : p.1 = k
    · exact List.mem_cons.mpr (Or.inl hp.symm)
    · simp only [lookupBy, if_neg hp] at h
      exact List.mem_cons.mpr (Or.inr (ih a h))

/-- An effectful fold over a list of ids returns `none` as soon as it meets
an id in `P`, provided ids outside `P` leave the accumulator untouched. -/
lemma foldlM_none_of_exists {σ : Type} (g : σ → String → Option σ) (b : σ)
    (P : String → Prop) (hP : ∀ id, P id → g b id = none)
    (hnP : ∀ id, ¬ P id → g b id = some b) :
    ∀ ids : List String, (∃ nid ∈ ids, P nid) → List.foldlM g b ids = none := by
  intro ids
  induction ids with
  | nil =>
    rintro ⟨nid, hmem, _⟩
    simp at hmem
  | cons hd rest ih =>
    rintro ⟨nid, hmem, hPnid⟩
    by_cases hPh : P hd
    · rw [show List.foldlM g b (hd :: rest) =
          g b hd >>= fun x => List.foldlM g x rest from rfl, hP hd hPh]
      rfl
    · rw [show List.foldlM g b (hd :: rest) =
          g b hd >>= fun x => List.foldlM g x rest from rfl, hnP hd hPh]
      show List.foldlM g b rest = none
      apply ih
      rcases List.mem_cons.mp hmem with heq | hmem2
      · exact absurd (heq ▸ hPnid) hPh
      · exact ⟨nid, hmem2, hPnid⟩

/-- An effectful fold over ids that all leave the accumulator untouched
returns it unchanged. -/
lemma foldlM_some_of_all {σ : Type} (g : σ → String → Option σ) (b : σ)
    (h : ∀ id, g b id = some b) :
    ∀ ids : List String, List.foldlM g b ids = some b := by
  intro ids
  induction ids with
  | nil => rfl
  | cons hd rest ih =>
    rw [show List.foldlM g b (hd :: rest) =
        g b hd >>= fun x => List.foldlM g x rest from rfl, h hd]
    exact ih

end CS

/-- Universal non-termination of the status spread: in every state with a
positive spread radius in which some other registered entity lies within the
radius of the (registered) target, `applyStatusEffect` exhausts every finite
fuel — the spread reaches that neighbour, and by symmetry of the distance the
target is in range of the neighbour in turn, with no visited set or hop cap
to stop the mutual recursion. -/
lemma applyStatusEffectFuel_spread_none (fuel : ℕ) :
    ∀ (st : CS.State) (tid ty : String) (s d : ℚ) (e ne : CS.Entity)
      (nid : String),
      0 < st.statusSpreadRadius →
      CS.lookupBy st.entities tid = some e →
      ¬ nid = tid →
      CS.lookupBy st.entities nid = some ne →
      (e.x - ne.x) ^ 2 + (e.y - ne.y) ^ 2 ≤ st.statusSpreadRadius ^ 2 →
      CS.applyStatusEffectFuel fuel st tid ty s d = none := by
  induction fuel with
  | zero => intro st tid ty s d e ne nid _ _ _ _ _; rfl
  | succ n ih =>
    intro st tid ty s d e ne nid hr he hnid hne hdist
    simp only [CS.applyStatusEffectFuel, he, CS.setEntity_statusSpreadRadius,
      hr, if_true]
    refine CS.foldlM_none_of_exists _ _
      (fun id => ¬ id = tid ∧ ∃ nh : CS.Entity,
        CS.lookupBy st.entities id = some nh ∧
        (e.x - nh.x) ^ 2 + (e.y - nh.y) ^ 2 ≤ st.statusSpreadRadius ^ 2)
      ?_ ?_ _ ?_
    · rintro id ⟨hid, nh, hnh, hd⟩
      rw [if_neg hid, CS.lookupBy_setEntity_other tid id _ hid, hnh]
      split
      next heq => exact Option.noConfusion heq
      next nearby heq =>
      injection heq with hinj
      subst hinj
      rw [CS.setEntity_statusSpreadRadius, if_pos hd]
      exact ih _ id ty _ _ nh _ tid
        hr
        (by rw [CS.lookupBy_setEntity_other tid id _ hid]; exact hnh)
        (fun h => hid h.symm)
        (CS.lookupBy_setEntity_self tid _ st e he)
        (by
          show (nh.x - e.x) ^ 2 + (nh.y - e.y) ^ 2 ≤ st.statusSpreadRadius ^ 2
          rw [CS.sq_sub_comm nh.x e.x, CS.sq_sub_comm nh.y e.y]
          exact hd)
    · intro id hnp
      by_cases hid : id = tid
      · rw [if_pos hid]
      · rw [if_neg hid, CS.lookupBy_setEntity_other tid id _ hid]
        split
        next => rfl
        next nh hl =>
        rw [CS.setEntity_statusSpreadRadius,
          if_neg (fun hcon => hnp ⟨hid, nh, hl, hcon⟩)]
    · rw [CS.map_fst_setEntity]
      exact ⟨nid, CS.mem_map_fst_of_lookupBy nid st.entities ne hne,
        hnid, ne, hne, hdist⟩

/-- Universal termination when no spread recursion starts: with a
non-positive spread radius, or with no other registered entity within the
radius of the target, `applyStatusEffect` returns after the single top-level
call (fuel 1 suffices). -/
lemma applyStatusEffectFuel_one_some (st : CS.State) (tid ty : String)
    (s d : ℚ)
    (h : ¬ 0 < st.statusSpreadRadius ∨
      (∀ (e nh : CS.Entity) (nid : String), ¬ nid = tid →
        CS.lookupBy st.entities tid = some e →
        CS.lookupBy st.entities nid = some nh →
        ¬ ((e.x - nh.x) ^ 2 + (e.y - nh.y) ^ 2 ≤ st.statusSpreadRadius ^ 2))) :
    (CS.applyStatusEffectFuel 1 st tid ty s d).isSome = true := by
  cases hlt : CS.lookupBy st.entities tid with
  | none => simp [CS.applyStatusEffectFuel, hlt]
  | some e =>
    by_cases hrad : 0 < st.statusSpreadRadius
    · rcases h with hneg | hfar
      · exact absurd hrad hneg
      · simp only [CS.applyStatusEffectFuel, hlt,
          CS.setEntity_statusSpreadRadius, hrad, if_true]
        rw [CS.foldlM_some_of_all _ _ ?_]
        · rfl
        · intro id
          by_cases hid : id = tid
          · rw [if_pos hid]
          · rw [if_neg hid, CS.lookupBy_setEntity_other tid id _ hid]
            split
            next => rfl
            next nh hl =>
            rw [CS.setEntity_statusSpreadRadius,
              if_neg (hfar e nh id hid hlt hl)]
    · simp [CS.applyStatusEffectFuel, hlt, CS.setEntity_statusSpreadRadius,
        hrad]

/-- Claim C9 amended: `applyStatusEffect` does *not* terminate whenever the
status-spread radius is positive and a second registered entity lies within
that radius of the target — the recursion carries no visited set or hop cap,
so the 70%-decayed re-spreads continue for ever (by symmetry of the distance
the two entities keep re-infecting each other).  The call returns exactly
when no spread recursion starts: with a non-positive spread radius, or with
no other entity in range of the target, a single step suffices. -/
theorem C9_applyStatusEffect_termination_amended :
    (∀ (fuel : ℕ) (st : CS.State) (tid ty : String) (s d : ℚ)
      (e ne : CS.Entity) (nid : String),
      0 < st.statusSpreadRadius →
      CS.lookupBy st.entities tid = some e →
      ¬ nid = tid →
      CS.lookupBy st.entities nid = some ne →
      (e.x - ne.x) ^ 2 + (e.y - ne.y) ^ 2 ≤ st.statusSpreadRadius ^ 2 →
      CS.applyStatusEffectFuel fuel st tid ty s d = none) ∧
    (∀ (st : CS.State) (tid ty : String) (s d : ℚ),
      (¬ 0 < st.statusSpreadRadius ∨
        (∀ (e nh : CS.Entity) (nid : String), ¬ nid = tid →
          CS.lookupBy st.entities tid = some e →
          CS.lookupBy st.entities nid = some nh →
          ¬ ((e.x - nh.x) ^ 2 + (e.y - nh.y) ^ 2 ≤
            st.statusSpreadRadius ^ 2))) →
      (CS.applyStatusEffectFuel 1 st tid ty s d).isSome = true) :=
  ⟨fun fuel st tid ty s d e ne nid hr he hnid hne hdist =>
    applyStatusEffectFuel_spread_none fuel st tid ty s d e ne nid
      hr he hnid hne hdist,
   fun st tid ty s d h => applyStatusEffectFuel_one_some st tid ty s d h⟩

/-- Witness for the amended C9: at `cfgTwoC9` (radius 25, entities `A` and
`B` at the origin) no fuel terminates, while at the radius-0 system
`cfgNoSpreadC9` one step returns. -/
theorem C9_applyStatusEffect_termination_amended_witness :
    CS.applyStatusEffectFuel 7 cfgTwoC9 "A" "burn" 5 3000 = none ∧
    (CS.applyStatusEffectFuel 1 cfgNoSpreadC9 "A" "burn" 5 3000).isSome = true := by
  constructor
  · exact C9_applyStatusEffect_termination_amended.1 7 cfgTwoC9 "A" "burn" 5 3000
      entC9 entC9 "B"
      (by norm_num [cfgTwoC9])
      (by simp [cfgTwoC9, CS.lookupBy])
      (by decide)
      (by simp [cfgTwoC9, CS.lookupBy])
      (by norm_num [entC9, cfgTwoC9])
  · exact C9_applyStatusEffect_termination_amended.2 cfgNoSpreadC9 "A" "burn" 5 3000
      (Or.inl (by norm_num [cfgNoSpreadC9]))

/-! ## WaveSystem (src/client/src/game/systems/WaveSystem.ts) -/

namespace WS

/-- One `{type, count, delay, pathIndex?}` entry of a wave configuration. -/
structure WaveEntry where
  etype : ES.EnemyType
  count : ℕ
  delay : ℚ
  pathIndex : Option ℕ := none
  deriving Repr, DecidableEq

/-- A `WaveConfig`. -/
structure WaveConfig where
  enemies : List WaveEntry
  reward : ℚ
  bossWave : Bool := false
  deriving Repr, DecidableEq

/-- The `config.enemies.forEach(enemy => enemy.pathIndex = Math.floor(Math.random() * 2))`
loop, with the random draws supplied as a stream `rand` indexed by entry
position. -/
def assignPaths (rand : ℕ → ℕ) : ℕ → List WaveEntry → List WaveEntry
  | _, [] => []
  | i, e :: rest => { e with pathIndex := some (rand i % 2) } :: assignPaths rand (i + 1) rest

/-- Embeds `getBossWaveConfig(waveNumber)`: a single boss, plus two shielded escorts
from wave 10 on. -/
def getBossWaveConfig (w : ℕ) : WaveConfig :=
  { enemies :=
      [{ etype := .boss, count := 1, delay := 2000 }] ++
        (if 10 ≤ w then [{ etype := .shielded, count := 2, delay := 1000 }] else []),
    reward := 500 + (w : ℚ) * 100, bossWave := true }

/-- Embeds `getBaseWaveConfig(waveNumber)`: boss wave when `waveNumber % 5 === 0`,
otherwise basic enemies (count `max(5, 15 − ⌊w/2⌋)`, JS subtraction of the
floored half is matched by ℕ truncated subtraction thanks to the outer
`max 5`), plus fast (`w ≥ 2`), tank (`w ≥ 3`) and shielded (`w ≥ 4`) entries,
then randomized path indices. -/
def getBaseWaveConfig (w : ℕ) (rand : ℕ → ℕ) : WaveConfig :=
  if w % 5 = 0 then getBossWaveConfig w
  else
    let enemies : List WaveEntry :=
      [{ etype := .basic, count := max 5 (15 - w / 2), delay := 1000 }] ++
        (if 2 ≤ w then [{ etype := .fast, count := min 10 (w / 2), delay := 800 }] else []) ++
        (if 3 ≤ w then [{ etype := .tank, count := min 5 (w / 3), delay := 2000 }] else []) ++
        (if 4 ≤ w then [{ etype := .shielded, count := min 3 (w / 4), delay := 3000 }] else [])
    { enemies := assignPaths rand 0 enemies,
      reward := 100 + (w : ℚ) * 50, bossWave := false }

/-- Embeds `applyDifficultyScaling(config, waveNumber)`: counts are scaled by
`Math.ceil(count * difficultyMultiplier)` except on boss waves (`Int.toNat`
matches JS for the nonnegative multipliers the game uses), delays by
`max(500, delay * (1 − (w−1)·0.05))`, the reward by
`Math.ceil(reward * (1 + (w−1)·0.1))`. -/
def applyDifficultyScaling (cfg : WaveConfig) (w : ℕ) (m : ℚ) : WaveConfig :=
  { enemies := cfg.enemies.map fun e =>
      { e with
        count := if cfg.bossWave then e.count else (Int.ceil ((e.count : ℚ) * m)).toNat,
        delay := max 500 (e.delay * (1 - ((w : ℚ) - 1) * (1/20))) },
    reward := ((Int.ceil (cfg.reward * (1 + ((w : ℚ) - 1) * (1/10)))) : ℚ),
    bossWave := cfg.bossWave }

/-- Embeds `getWaveConfig(waveNumber)` (`m` is the `difficultyMultiplier` field). -/
def getWaveConfig (w : ℕ) (rand : ℕ → ℕ) (m : ℚ) : WaveConfig :=
  applyDifficultyScaling (getBaseWaveConfig w rand) w m

/-- The total enemy count of a wave configuration. -/
def totalEnemyCount (cfg : WaveConfig) : ℕ :=
  (cfg.enemies.map fun e => e.count).sum

end WS

/-- Counterexample to claim C6: wave 5 is a boss wave with a single enemy, so
its total enemy count (1) is *smaller* than that of wave 1 (15) although `1 < 5` —
the generated difficulty is not monotone in the wave index. -/
theorem C6_wave_monotonicity_counterexample :
    1 < 5 ∧
    WS.totalEnemyCount (WS.getWaveConfig 5 (fun _ => 0) 1) <
      WS.totalEnemyCount (WS.getWaveConfig 1 (fun _ => 0) 1) := by
  constructor
  · norm_num
  · show WS.totalEnemyCount (WS.getWaveConfig 5 (fun _ => 0) 1) <
      WS.totalEnemyCount (WS.getWaveConfig 1 (fun _ => 0) 1)
    simp [WS.getWaveConfig, WS.getBaseWaveConfig, WS.getBossWaveConfig,
      WS.applyDifficultyScaling, WS.totalEnemyCount, WS.assignPaths]

namespace WS

lemma assignPaths_map_count (rand : ℕ → ℕ) :
    ∀ (i : ℕ) (l : List WaveEntry),
      (assignPaths rand i l).map (fun e => e.count) = l.map fun e => e.count := by
  intro i l
  induction l generalizing i with
  | nil => rfl
  | cons e rest ih => simp [assignPaths, ih]

lemma mem_assignPaths (rand : ℕ → ℕ) :
    ∀ (i : ℕ) (l : List WaveEntry) (e : WaveEntry), e ∈ assignPaths rand i l →
      ∃ b ∈ l, e.etype = b.etype ∧ e.count = b.count ∧ e.delay = b.delay := by
  intro i l
  induction l generalizing i with
  | nil => intro e he; simp [assignPaths] at he
  | cons b rest ih =>
    intro e he
    simp only [assignPaths, List.mem_cons] at he
    rcases he with h | h
    · exact ⟨b, List.mem_cons_self b rest, by simp [h]⟩
    · obtain ⟨b2, hb2, hprops⟩ := ih (i + 1) e h
      exact ⟨b2, List.mem_cons_of_mem b hb2, hprops⟩

lemma totalEnemyCount_scaling (cfg : WaveConfig) (w : ℕ) :
    totalEnemyCount (applyDifficultyScaling cfg w 1) = totalEnemyCount cfg := by
  unfold totalEnemyCount applyDifficultyScaling
  simp only [List.map_map]
  apply congrArg List.sum
  apply List.map_congr_left
  intro e _
  by_cases hb : cfg.bossWave <;> simp [hb]

lemma totalEnemyCount_assign (rand : ℕ → ℕ) (l : List WaveEntry) (r : ℚ) :
    totalEnemyCount { enemies := assignPaths rand 0 l, reward := r, bossWave := false } =
      (l.map fun e => e.count).sum := by
  unfold totalEnemyCount
  rw [assignPaths_map_count]

lemma totalEnemyCount_regular (w : ℕ) (rand : ℕ → ℕ) (hw : ¬ w % 5 = 0) :
    totalEnemyCount (getWaveConfig w rand 1) =
      max 5 (15 - w / 2) + (if 2 ≤ w then min 10 (w / 2) else 0) +
        (if 3 ≤ w then min 5 (w / 3) else 0) + (if 4 ≤ w then min 3 (w / 4) else 0) := by
  unfold getWaveConfig
  rw [totalEnemyCount_scaling]
  unfold getBaseWaveConfig
  rw [if_neg hw]
  simp only
  rw [totalEnemyCount_assign]
  split_ifs <;> simp <;> omega

end WS

namespace WS

/-- Characterization of the entries of a regular (non-boss) scaled wave:
each is one of the four typed templates with its base delay scaled by the
per-wave delay factor. -/
lemma mem_getWaveConfig_regular (w : ℕ) (rand : ℕ → ℕ) (hw : ¬ w % 5 = 0)
    (e : WaveEntry) (he : e ∈ (getWaveConfig w rand 1).enemies) :
    (e.etype = .basic ∧ e.delay = max 500 (1000 * (1 - ((w : ℚ) - 1) * (1/20)))) ∨
    (2 ≤ w ∧ e.etype = .fast ∧ e.delay = max 500 (800 * (1 - ((w : ℚ) - 1) * (1/20)))) ∨
    (3 ≤ w ∧ e.etype = .tank ∧ e.delay = max 500 (2000 * (1 - ((w : ℚ) - 1) * (1/20)))) ∨
    (4 ≤ w ∧ e.etype = .shielded ∧ e.delay = max 500 (3000 * (1 - ((w : ℚ) - 1) * (1/20)))) := by
  unfold getWaveConfig applyDifficultyScaling at he
  simp only [List.mem_map] at he
  obtain ⟨b, hb, hbe⟩ := he
  unfold getBaseWaveConfig at hb
  rw [if_neg hw] at hb
  simp only at hb
  obtain ⟨b2, hb2, hety, _, hdel⟩ := mem_assignPaths rand 0 _ b hb
  subst hbe
  simp only [List.mem_append, List.mem_singleton] at hb2
  have hfalse : (getBaseWaveConfig w rand).bossWave = false := by
    unfold getBaseWaveConfig
    rw [if_neg hw]
  rcases hb2 with ((hb2 | hb2) | hb2) | hb2
  · refine Or.inl ⟨by simp [hety, hb2], ?_⟩
    simp [hdel, hb2, mul_comm]
  · by_cases h2 : 2 ≤ w
    · rw [if_pos h2] at hb2
      simp only [List.mem_singleton] at hb2
      refine Or.inr (Or.inl ⟨by assumption, by simp [hety, hb2], ?_⟩)
      simp [hdel, hb2, mul_comm]
    · rw [if_neg h2] at hb2
      simp at hb2
  · by_cases h3 : 3 ≤ w
    · rw [if_pos h3] at hb2
      simp only [List.mem_singleton] at hb2
      refine Or.inr (Or.inr (Or.inl ⟨by assumption, by simp [hety, hb2], ?_⟩))
      simp [hdel, hb2, mul_comm]
    · rw [if_neg h3] at hb2
      simp at hb2
  · by_cases h4 : 4 ≤ w
    · rw [if_pos h4] at hb2
      simp only [List.mem_singleton] at hb2
      refine Or.inr (Or.inr (Or.inr ⟨by assumption, by simp [hety, hb2], ?_⟩))
      simp [hdel, hb2, mul_comm]
    · rw [if_neg h4] at hb2
      simp at hb2

/-- A fixed base delay scaled by the per-wave delay factor is non-increasing
in the wave index (and clamped below at 500). -/
lemma delay_mono (d0 : ℚ) (hd : 0 ≤ d0) (i j : ℕ) (hij : i ≤ j) :
    max 500 (d0 * (1 - ((j : ℚ) - 1) * (1/20))) ≤
      max 500 (d0 * (1 - ((i : ℚ) - 1) * (1/20))) := by
  apply max_le_max le_rfl
  apply mul_le_mul_of_nonneg_left _ hd
  have hc : (i : ℚ) ≤ (j : ℚ) := Nat.cast_le.mpr hij
  linarith

end WS

/-- Claim C6 amended: difficulty monotonicity holds for the regular waves,
not across boss waves (every 5th wave, which has a single boss unit): for
non-boss wave indices `i < j` and the default difficulty multiplier 1, the
total enemy count of wave `j` is ≥ that of wave `i`, and every enemy type
occurring in both waves has a spawn delay in wave `j` ≤ its delay in wave
`i`. -/
theorem C6_wave_monotonicity_amended (i j : ℕ) (ri rj : ℕ → ℕ)
    (hij : i < j) (hi5 : ¬ i % 5 = 0) (hj5 : ¬ j % 5 = 0) :
    WS.totalEnemyCount (WS.getWaveConfig i ri 1) ≤
      WS.totalEnemyCount (WS.getWaveConfig j rj 1) ∧
    (∀ ej ∈ (WS.getWaveConfig j rj 1).enemies,
      ∀ ei ∈ (WS.getWaveConfig i ri 1).enemies,
        ej.etype = ei.etype → ej.delay ≤ ei.delay) := by
  constructor
  · rw [WS.totalEnemyCount_regular i ri hi5, WS.totalEnemyCount_regular j rj hj5]
    split_ifs <;> omega
  · intro ej hej ei hei heq
    rcases WS.mem_getWaveConfig_regular j rj hj5 ej hej with
      ⟨htj, hdj⟩ | ⟨_, htj, hdj⟩ | ⟨_, htj, hdj⟩ | ⟨_, htj, hdj⟩ <;>
    rcases WS.mem_getWaveConfig_regular i ri hi5 ei hei with
      ⟨hti, hdi⟩ | ⟨_, hti, hdi⟩ | ⟨_, hti, hdi⟩ | ⟨_, hti, hdi⟩ <;>
    rw [htj, hti] at heq <;>
    first
      | exact absurd heq (by decide)
      | (rw [hdj, hdi]; exact WS.delay_mono _ (by norm_num) i j hij.le)

/-- Witness for the amended C6 at `i = 1 < 2 = j` (both non-boss waves). -/
theorem C6_wave_monotonicity_amended_witness :
    WS.totalEnemyCount (WS.getWaveConfig 1 (fun _ => 0) 1) ≤
      WS.totalEnemyCount (WS.getWaveConfig 2 (fun _ => 0) 1) :=
  (C6_wave_monotonicity_amended 1 2 (fun _ => 0) (fun _ => 0)
    (by norm_num) (by norm_num) (by norm_num)).1

namespace WS

/-- The `WaveSystem` mutable fields, together with the one external
observation the completion check makes (`EnemySystem.getActiveEnemyCount()`,
tracked here as `activeEnemies`: `spawnEnemy` registers an active enemy, so a
spawn increments it; kills between frames decrement it externally) and a
counter of emitted `waveComplete` events. -/
structure WaveState where
  currentWave : ℕ
  isWaveActive : Bool
  spawnTimer : ℚ
  currentWaveConfig : Option WaveConfig
  currentEnemyIndex : ℕ
  currentEnemyCount : ℕ
  totalWaves : ℕ
  difficultyMultiplier : ℚ
  activeEnemies : ℕ
  completeEvents : ℕ
  deriving Repr, DecidableEq

/-- Embeds `startNextWave()`: rejected while a wave is active. -/
def startNextWave (st : WaveState) (rand : ℕ → ℕ) : WaveState :=
  if st.isWaveActive then st
  else
    { st with
      currentWave := st.currentWave + 1
      isWaveActive := true
      currentWaveConfig :=
        some (getWaveConfig (st.currentWave + 1) rand st.difficultyMultiplier)
      currentEnemyIndex := 0
      currentEnemyCount := 0
      spawnTimer := 0 }

/-- Embeds `completeWave()`. -/
def completeWave (st : WaveState) : WaveState :=
  match st.currentWaveConfig with
  | none => st
  | some _ => { st with isWaveActive := false, completeEvents := st.completeEvents + 1 }

/-- Embeds `checkWaveCompletion()`: completes the wave only if no enemy is active. -/
def checkWaveCompletion (st : WaveState) : WaveState :=
  if st.activeEnemies = 0 then completeWave st else st

lemma checkWaveCompletion_of_pos (st : WaveState) (h : ¬ st.activeEnemies = 0) :
    checkWaveCompletion st = st := by
  unfold checkWaveCompletion
  rw [if_neg h]

/-- Embeds `update(delta)` (lines 166–187): accumulate the spawn timer; when the
delay of the current entry has elapsed, spawn one enemy (which registers an active
enemy), advance the per-entry counter/index, and — only when the index has
just run past the end of the entry list — call `checkWaveCompletion`. -/
def waveUpdate (st : WaveState) (delta : ℚ) : WaveState :=
  match st.currentWaveConfig with
  | none => st
  | some cfg =>
    if st.isWaveActive then
      let st1 := { st with spawnTimer := st.spawnTimer + delta }
      match cfg.enemies.get? st1.currentEnemyIndex with
      | none => st1
      | some entry =>
        if entry.delay ≤ st1.spawnTimer then
          let st2 := { st1 with
            spawnTimer := 0
            activeEnemies := st1.activeEnemies + 1
            currentEnemyCount := st1.currentEnemyCount + 1 }
          let st3 :=
            if entry.count ≤ st2.currentEnemyCount then
              { st2 with currentEnemyIndex := st2.currentEnemyIndex + 1,
                         currentEnemyCount := 0 }
            else st2
          if cfg.enemies.length ≤ st3.currentEnemyIndex then checkWaveCompletion st3
          else st3
        else st1
    else st

/-- The external event "some active enemies are defeated/removed between
frames": decrements the active count without touching the wave fields. -/
def defeatEnemies (st : WaveState) (k : ℕ) : WaveState :=
  { st with activeEnemies := st.activeEnemies - k }

end WS

/-- Claim C5 fails on the code (code bug): `waveUpdate` can never complete a
wave.  `checkWaveCompletion` is called only in the same tick that spawns the
final enemy, when the just-spawned enemy makes `getActiveEnemyCount() ≥ 1`,
and on every later tick `enemies[currentEnemyIndex]` is `undefined`, so the
check is never reached again.  Hence a single `update` step never clears
`isWaveActive` and never emits `waveComplete` — even from states where all
entries have been spawned and the active enemy count is zero — and the same
holds for any number of update steps interleaved with enemy defeats. -/
theorem C5_wave_never_completes :
    (∀ (st : WS.WaveState) (delta : ℚ),
      (WS.waveUpdate st delta).isWaveActive = st.isWaveActive ∧
      (WS.waveUpdate st delta).completeEvents = st.completeEvents) ∧
    (∀ (st : WS.WaveState) (k : ℕ),
      (WS.defeatEnemies st k).isWaveActive = st.isWaveActive ∧
      (WS.defeatEnemies st k).completeEvents = st.completeEvents) := by
  constructor
  · intro st delta
    unfold WS.waveUpdate
    cases hcfg : st.currentWaveConfig with
    | none => exact ⟨rfl, rfl⟩
    | some cfg =>
      by_cases hact : st.isWaveActive
      · simp only [hact, if_true]
        cases hentry : cfg.enemies.get? st.currentEnemyIndex with
        | none => exact ⟨rfl, rfl⟩
        | some entry =>
          dsimp only
          by_cases hdel : entry.delay ≤ st.spawnTimer + delta
          · rw [if_pos hdel]
            by_cases hcnt : entry.count ≤ st.currentEnemyCount + 1
            · rw [if_pos hcnt]
              by_cases hlen : cfg.enemies.length ≤ st.currentEnemyIndex + 1
              · rw [if_pos hlen]
                rw [WS.checkWaveCompletion_of_pos _ (by simp)]
                exact ⟨rfl, rfl⟩
              · rw [if_neg hlen]
                exact ⟨rfl, rfl⟩
            · rw [if_neg hcnt]
              by_cases hlen : cfg.enemies.length ≤ st.currentEnemyIndex
              · rw [if_pos hlen]
                rw [WS.checkWaveCompletion_of_pos _ (by simp)]
                exact ⟨rfl, rfl⟩
              · rw [if_neg hlen]
                exact ⟨rfl, rfl⟩
          · rw [if_neg hdel]
            exact ⟨rfl, rfl⟩
      · simp [hact]
  · intro st k
    exact ⟨rfl, rfl⟩

/-! ## Achievements (CombatSystem.updateAchievement, lines 911–953) -/

namespace ACH

/-- An `Achievement` record (progress counters are the natural-number combo
counts the system feeds in). -/
structure Achievement where
  id : String
  requirement : ℕ
  progress : ℕ
  achieved : Bool
  tier : Option String := none
  nextTier : Option String := none
  deriving Repr, DecidableEq

/-- The `achievements: Map<string, Achievement>` registry. -/
def AchMap := List (String × Achievement)

/-- In-place mutation of the achievement object bound to `id` (the JS code
mutates the object held by the map). -/
def updateA (m : AchMap) (id : String) (a : Achievement) : AchMap :=
  m.map fun p => if p.1 = id then (id, a) else p

/-- Embeds `updateAchievement(id, progress)`: raise the progress to the max of old
and new, and on reaching the requirement set `achieved`, then seed the
`nextTier` achievement with the same progress and, when that already meets
its own requirement, recurse into it immediately.  The recursion is given a
fuel (the source recurses without bound; chains are 3 long). -/
def updateAchievement : ℕ → AchMap → String → ℕ → AchMap
  | 0, m, _, _ => m
  | fuel+1, m, id, progress =>
    match CS.lookupBy m id with
    | none => m
    | some a =>
      if a.achieved then m
      else
        let a1 : Achievement := { a with progress := max a.progress progress }
        let m1 := updateA m id a1
        if a1.requirement ≤ a1.progress then
          let a2 : Achievement := { a1 with achieved := true }
          let m2 := updateA m1 id a2
          match a2.nextTier with
          | none => m2
          | some nid =>
            match CS.lookupBy m2 nid with
            | none => m2
            | some nt =>
              let nt1 : Achievement := { nt with progress := a2.progress }
              let m3 := updateA m2 nid nt1
              if nt1.requirement ≤ nt1.progress then
                updateAchievement fuel m3 nid nt1.progress
              else m3
        else m1

/-- Whether the achievement bound to `id` has `achieved = true`. -/
def achievedAt (m : AchMap) (id : String) : Bool :=
  ((CS.lookupBy m id).map fun a => a.achieved).getD false

lemma lookupBy_updateA_self (k : String) (v : Achievement) :
    ∀ (m : AchMap) (a : Achievement), CS.lookupBy m k = some a →
      CS.lookupBy (updateA m k v) k = some v := by
  intro m
  induction m with
  | nil => intro a h; simp [CS.lookupBy] at h
  | cons p rest ih =>
    intro a h
    by_cases hp : p.1 = k
    · simp only [updateA, List.map_cons, if_pos hp, CS.lookupBy]
      simp
    · simp only [CS.lookupBy, if_neg hp] at h
      simp only [updateA, List.map_cons, if_neg hp, CS.lookupBy]
      exact ih a h

lemma lookupBy_updateA_other (k k2 : String) (v : Achievement) (hne : ¬ k2 = k) :
    ∀ m : AchMap, CS.lookupBy (updateA m k v) k2 = CS.lookupBy m k2 := by
  intro m
  induction m with
  | nil => rfl
  | cons p rest ih =>
    by_cases hp : p.1 = k
    · simp only [updateA, List.map_cons, if_pos hp, CS.lookupBy] at ih ⊢
      rw [if_neg (fun h => hne h.symm), if_neg (fun h => hne (h.symm.trans hp))]
      exact ih
    · simp only [updateA, List.map_cons, if_neg hp, CS.lookupBy] at ih ⊢
      by_cases h2 : p.1 = k2
      · rw [if_pos h2, if_pos h2]
      · rw [if_neg h2, if_neg h2]
        exact ih

end ACH

namespace ACH

/-- One completed `updateAchievement` step that cascades: the target is found,
unachieved, its (max-raised) progress meets the requirement, its next tier
exists and also already meets its requirement, so the call recurses into the
next tier after seeding it. -/
lemma updateAchievement_step (fuel : ℕ) (m : AchMap) (id nid : String)
    (progress : ℕ) (a nt : Achievement)
    (ha : CS.lookupBy m id = some a) (hach : a.achieved = false)
    (hreq : a.requirement ≤ max a.progress progress)
    (hn : a.nextTier = some nid) (hnid : ¬ nid = id)
    (hnt : CS.lookupBy m nid = some nt)
    (hntreq : nt.requirement ≤ max a.progress progress) :
    updateAchievement (fuel + 1) m id progress =
      updateAchievement fuel
        (updateA
          (updateA (updateA m id { a with progress := max a.progress progress })
            id { a with progress := max a.progress progress, achieved := true })
          nid { nt with progress := max a.progress progress })
        nid (max a.progress progress) := by
  have ho1 : CS.lookupBy
      (updateA
        (updateA m id
          { id := a.id, requirement := a.requirement,
            progress := max a.progress progress, achieved := false,
            tier := a.tier, nextTier := some nid })
        id
        { id := a.id, requirement := a.requirement,
          progress := max a.progress progress, achieved := true,
          tier := a.tier, nextTier := some nid }) nid = some nt := by
    rw [lookupBy_updateA_other id nid _ hnid, lookupBy_updateA_other id nid _ hnid]
    exact hnt
  simp only [updateAchievement, ha, hach, Bool.false_eq_true, if_false,
    reduceIte, hreq, if_true, hn, ho1, hntreq]

/-- The final `updateAchievement` step of a cascade: the gold tier completes
and has no `nextTier`. -/
lemma updateAchievement_last (fuel : ℕ) (m : AchMap) (id : String)
    (progress : ℕ) (a : Achievement)
    (ha : CS.lookupBy m id = some a) (hach : a.achieved = false)
    (hreq : a.requirement ≤ max a.progress progress)
    (hn : a.nextTier = none) :
    updateAchievement (fuel + 1) m id progress =
      updateA (updateA m id { a with progress := max a.progress progress })
        id { a with progress := max a.progress progress, achieved := true } := by
  simp only [updateAchievement, ha, hach, Bool.false_eq_true, if_false,
    reduceIte, hreq, if_true, hn]

end ACH

/-- Claim C7: for a tiered achievement family (bronze → silver → gold linked
by `nextTier`, none achieved yet), reporting a progress value `p` reaching
the gold requirement (and hence the lower tier requirements) to the bronze
tier in one `updateAchievement` call makes bronze, silver and gold all
`achieved = true` within that one update: completion copies the progress into
the next tier and immediately re-checks it. -/
theorem C7_tier_cascade (m : ACH.AchMap) (bId sId gId : String)
    (bronze silver gold : ACH.Achievement) (p : ℕ)
    (hb : CS.lookupBy m bId = some bronze) (hs : CS.lookupBy m sId = some silver)
    (hg : CS.lookupBy m gId = some gold)
    (hbach : bronze.achieved = false) (hsach : silver.achieved = false)
    (hgach : gold.achieved = false)
    (hbn : bronze.nextTier = some sId) (hsn : silver.nextTier = some gId)
    (hgn : gold.nextTier = none)
    (hbs : ¬ bId = sId) (hbg : ¬ bId = gId) (hsg : ¬ sId = gId)
    (hbreq : bronze.requirement ≤ p) (hsreq : silver.requirement ≤ p)
    (hgreq : gold.requirement ≤ p) :
    ACH.achievedAt (ACH.updateAchievement 3 m bId p) bId = true ∧
    ACH.achievedAt (ACH.updateAchievement 3 m bId p) sId = true ∧
    ACH.achievedAt (ACH.updateAchievement 3 m bId p) gId = true := by
  have hsb : ¬ sId = bId := fun h => hbs h.symm
  have hgb : ¬ gId = bId := fun h => hbg h.symm
  have hgs : ¬ gId = sId := fun h => hsg h.symm
  have hq1 : bronze.requirement ≤ max bronze.progress p :=
    le_trans hbreq (le_max_right _ _)
  have hq2 : silver.requirement ≤ max bronze.progress p :=
    le_trans hsreq (le_max_right _ _)
  have e1 := ACH.updateAchievement_step 2 m bId sId p bronze silver
    hb hbach hq1 hbn hsb hs hq2
  have hM1s : CS.lookupBy (ACH.updateA (ACH.updateA (ACH.updateA m bId ({ id := (bronze).id, requirement := (bronze).requirement, progress := max bronze.progress p, achieved := (bronze).achieved, tier := (bronze).tier, nextTier := (bronze).nextTier } : ACH.Achievement)) bId ({ id := (bronze).id, requirement := (bronze).requirement, progress := max bronze.progress p, achieved := true, tier := (bronze).tier, nextTier := (bronze).nextTier } : ACH.Achievement)) sId ({ id := (silver).id, requirement := (silver).requirement, progress := max bronze.progress p, achieved := (silver).achieved, tier := (silver).tier, nextTier := (silver).nextTier } : ACH.Achievement)) sId = some ({ id := (silver).id, requirement := (silver).requirement, progress := max bronze.progress p, achieved := (silver).achieved, tier := (silver).tier, nextTier := (silver).nextTier } : ACH.Achievement) :=
    ACH.lookupBy_updateA_self sId ({ id := (silver).id, requirement := (silver).requirement, progress := max bronze.progress p, achieved := (silver).achieved, tier := (silver).tier, nextTier := (silver).nextTier } : ACH.Achievement) _ silver (by
      rw [ACH.lookupBy_updateA_other bId sId _ hsb,
        ACH.lookupBy_updateA_other bId sId _ hsb]
      exact hs)
  have hM1g : CS.lookupBy (ACH.updateA (ACH.updateA (ACH.updateA m bId ({ id := (bronze).id, requirement := (bronze).requirement, progress := max bronze.progress p, achieved := (bronze).achieved, tier := (bronze).tier, nextTier := (bronze).nextTier } : ACH.Achievement)) bId ({ id := (bronze).id, requirement := (bronze).requirement, progress := max bronze.progress p, achieved := true, tier := (bronze).tier, nextTier := (bronze).nextTier } : ACH.Achievement)) sId ({ id := (silver).id, requirement := (silver).requirement, progress := max bronze.progress p, achieved := (silver).achieved, tier := (silver).tier, nextTier := (silver).nextTier } : ACH.Achievement)) gId = some gold := by
    rw [ACH.lookupBy_updateA_other sId gId _ hgs,
      ACH.lookupBy_updateA_other bId gId _ hgb,
      ACH.lookupBy_updateA_other bId gId _ hgb]
    exact hg
  have hs1req : ({ id := (silver).id, requirement := (silver).requirement, progress := max bronze.progress p, achieved := (silver).achieved, tier := (silver).tier, nextTier := (silver).nextTier } : ACH.Achievement).requirement ≤ max ({ id := (silver).id, requirement := (silver).requirement, progress := max bronze.progress p, achieved := (silver).achieved, tier := (silver).tier, nextTier := (silver).nextTier } : ACH.Achievement).progress (max bronze.progress p) :=
    le_trans hsreq (le_trans (le_max_right _ _) (le_max_right _ _))
  have hgq : gold.requirement ≤ max ({ id := (silver).id, requirement := (silver).requirement, progress := max bronze.progress p, achieved := (silver).achieved, tier := (silver).tier, nextTier := (silver).nextTier } : ACH.Achievement).progress (max bronze.progress p) :=
    le_trans hgreq (le_trans (le_max_right _ _) (le_max_right _ _))
  have e2 := ACH.updateAchievement_step 1 (ACH.updateA (ACH.updateA (ACH.updateA m bId ({ id := (bronze).id, requirement := (bronze).requirement, progress := max bronze.progress p, achieved := (bronze).achieved, tier := (bronze).tier, nextTier := (bronze).nextTier } : ACH.Achievement)) bId ({ id := (bronze).id, requirement := (bronze).requirement, progress := max bronze.progress p, achieved := true, tier := (bronze).tier, nextTier := (bronze).nextTier } : ACH.Achievement)) sId ({ id := (silver).id, requirement := (silver).requirement, progress := max bronze.progress p, achieved := (silver).achieved, tier := (silver).tier, nextTier := (silver).nextTier } : ACH.Achievement)) sId gId (max bronze.progress p) ({ id := (silver).id, requirement := (silver).requirement, progress := max bronze.progress p, achieved := (silver).achieved, tier := (silver).tier, nextTier := (silver).nextTier } : ACH.Achievement) gold
    hM1s hsach hs1req hsn hgs hM1g hgq
  have hM2g : CS.lookupBy (ACH.updateA (ACH.updateA (ACH.updateA (ACH.updateA (ACH.updateA (ACH.updateA m bId ({ id := (bronze).id, requirement := (bronze).requirement, progress := max bronze.progress p, achieved := (bronze).achieved, tier := (bronze).tier, nextTier := (bronze).nextTier } : ACH.Achievement)) bId ({ id := (bronze).id, requirement := (bronze).requirement, progress := max bronze.progress p, achieved := true, tier := (bronze).tier, nextTier := (bronze).nextTier } : ACH.Achievement)) sId ({ id := (silver).id, requirement := (silver).requirement, progress := max bronze.progress p, achieved := (silver).achieved, tier := (silver).tier, nextTier := (silver).nextTier } : ACH.Achievement)) sId ({ id := (({ id := (silver).id, requirement := (silver).requirement, progress := max bronze.progress p, achieved := (silver).achieved, tier := (silver).tier, nextTier := (silver).nextTier } : ACH.Achievement)).id, requirement := (({ id := (silver).id, requirement := (silver).requirement, progress := max bronze.progress p, achieved := (silver).achieved, tier := (silver).tier, nextTier := (silver).nextTier } : ACH.Achievement)).requirement, progress := max ({ id := (silver).id, requirement := (silver).requirement, progress := max bronze.progress p, achieved := (silver).achieved, tier := (silver).tier, nextTier := (silver).nextTier } : ACH.Achievement).progress (max bronze.progress p), achieved := (({ id := (silver).id, requirement := (silver).requirement, progress := max bronze.progress p, achieved := (silver).achieved, tier := (silver).tier, nextTier := (silver).nextTier } : ACH.Achievement)).achieved, tier := (({ id := (silver).id, requirement := (silver).requirement, progress := max bronze.progress p, achieved := (silver).achieved, tier := (silver).tier, nextTier := (silver).nextTier } : ACH.Achievement)).tier, nextTier := (({ id := (silver).id, requirement := (silver).requirement, progress := max bronze.progress p, achieved := (silver).achieved, tier := (silver).tier, nextTier := (silver).nextTier } : ACH.Achievement)).nextTier } : ACH.Achievement)) sId ({ id := (({ id := (silver).id, requirement := (silver).requirement, progress := max bronze.progress p, achieved := (silver).achieved, tier := (silver).tier, nextTier := (silver).nextTier } : ACH.Achievement)).id, requirement := (({ id := (silver).id, requirement := (silver).requirement, progress := max bronze.progress p, achieved := (silver).achieved, tier := (silver).tier, nextTier := (silver).nextTier } : ACH.Achievement)).requirement, progress := max ({ id := (silver).id, requirement := (silver).requirement, progress := max bronze.progress p, achieved := (silver).achieved, tier := (silver).tier, nextTier := (silver).nextTier } : ACH.Achievement).progress (max bronze.progress p), achieved := true, tier := (({ id := (silver).id, requirement := (silver).requirement, progress := max bronze.progress p, achieved := (silver).achieved, tier := (silver).tier, nextTier := (silver).nextTier } : ACH.Achievement)).tier, nextTier := (({ id := (silver).id, requirement := (silver).requirement, progress := max bronze.progress p, achieved := (silver).achieved, tier := (silver).tier, nextTier := (silver).nextTier } : ACH.Achievement)).nextTier } : ACH.Achievement)) gId ({ id := (gold).id, requirement := (gold).requirement, progress := max ({ id := (silver).id, requirement := (silver).requirement, progress := max bronze.progress p, achieved := (silver).achieved, tier := (silver).tier, nextTier := (silver).nextTier } : ACH.Achievement).progress (max bronze.progress p), achieved := (gold).achieved, tier := (gold).tier, nextTier := (gold).nextTier } : ACH.Achievement)) gId = some ({ id := (gold).id, requirement := (gold).requirement, progress := max ({ id := (silver).id, requirement := (silver).requirement, progress := max bronze.progress p, achieved := (silver).achieved, tier := (silver).tier, nextTier := (silver).nextTier } : ACH.Achievement).progress (max bronze.progress p), achieved := (gold).achieved, tier := (gold).tier, nextTier := (gold).nextTier } : ACH.Achievement) :=
    ACH.lookupBy_updateA_self gId ({ id := (gold).id, requirement := (gold).requirement, progress := max ({ id := (silver).id, requirement := (silver).requirement, progress := max bronze.progress p, achieved := (silver).achieved, tier := (silver).tier, nextTier := (silver).nextTier } : ACH.Achievement).progress (max bronze.progress p), achieved := (gold).achieved, tier := (gold).tier, nextTier := (gold).nextTier } : ACH.Achievement) _ gold (by
      rw [ACH.lookupBy_updateA_other sId gId _ hgs,
        ACH.lookupBy_updateA_other sId gId _ hgs]
      exact hM1g)
  have hg1req : ({ id := (gold).id, requirement := (gold).requirement, progress := max ({ id := (silver).id, requirement := (silver).requirement, progress := max bronze.progress p, achieved := (silver).achieved, tier := (silver).tier, nextTier := (silver).nextTier } : ACH.Achievement).progress (max bronze.progress p), achieved := (gold).achieved, tier := (gold).tier, nextTier := (gold).nextTier } : ACH.Achievement).requirement ≤ max ({ id := (gold).id, requirement := (gold).requirement, progress := max ({ id := (silver).id, requirement := (silver).requirement, progress := max bronze.progress p, achieved := (silver).achieved, tier := (silver).tier, nextTier := (silver).nextTier } : ACH.Achievement).progress (max bronze.progress p), achieved := (gold).achieved, tier := (gold).tier, nextTier := (gold).nextTier } : ACH.Achievement).progress (max ({ id := (silver).id, requirement := (silver).requirement, progress := max bronze.progress p, achieved := (silver).achieved, tier := (silver).tier, nextTier := (silver).nextTier } : ACH.Achievement).progress (max bronze.progress p)) :=
    le_trans hgreq (le_trans (le_max_right _ _)
      (le_trans (le_max_right _ _) (le_max_right _ _)))
  have e3 := ACH.updateAchievement_last 0 (ACH.updateA (ACH.updateA (ACH.updateA (ACH.updateA (ACH.updateA (ACH.updateA m bId ({ id := (bronze).id, requirement := (bronze).requirement, progress := max bronze.progress p, achieved := (bronze).achieved, tier := (bronze).tier, nextTier := (bronze).nextTier } : ACH.Achievement)) bId ({ id := (bronze).id, requirement := (bronze).requirement, progress := max bronze.progress p, achieved := true, tier := (bronze).tier, nextTier := (bronze).nextTier } : ACH.Achievement)) sId ({ id := (silver).id, requirement := (silver).requirement, progress := max bronze.progress p, achieved := (silver).achieved, tier := (silver).tier, nextTier := (silver).nextTier } : ACH.Achievement)) sId ({ id := (({ id := (silver).id, requirement := (silver).requirement, progress := max bronze.progress p, achieved := (silver).achieved, tier := (silver).tier, nextTier := (silver).nextTier } : ACH.Achievement)).id, requirement := (({ id := (silver).id, requirement := (silver).requirement, progress := max bronze.progress p, achieved := (silver).achieved, tier := (silver).tier, nextTier := (silver).nextTier } : ACH.Achievement)).requirement, progress := max ({ id := (silver).id, requirement := (silver).requirement, progress := max bronze.progress p, achieved := (silver).achieved, tier := (silver).tier, nextTier := (silver).nextTier } : ACH.Achievement).progress (max bronze.progress p), achieved := (({ id := (silver).id, requirement := (silver).requirement, progress := max bronze.progress p, achieved := (silver).achieved, tier := (silver).tier, nextTier := (silver).nextTier } : ACH.Achievement)).achieved, tier := (({ id := (silver).id, requirement := (silver).requirement, progress := max bronze.progress p, achieved := (silver).achieved, tier := (silver).tier, nextTier := (silver).nextTier } : ACH.Achievement)).tier, nextTier := (({ id := (silver).id, requirement := (silver).requirement, progress := max bronze.progress p, achieved := (silver).achieved, tier := (silver).tier, nextTier := (silver).nextTier } : ACH.Achievement)).nextTier } : ACH.Achievement)) sId ({ id := (({ id := (silver).id, requirement := (silver).requirement, progress := max bronze.progress p, achieved := (silver).achieved, tier := (silver).tier, nextTier := (silver).nextTier } : ACH.Achievement)).id, requirement := (({ id := (silver).id, requirement := (silver).requirement, progress := max bronze.progress p, achieved := (silver).achieved, tier := (silver).tier, nextTier := (silver).nextTier } : ACH.Achievement)).requirement, progress := max ({ id := (silver).id, requirement := (silver).requirement, progress := max bronze.progress p, achieved := (silver).achieved, tier := (silver).tier, nextTier := (silver).nextTier } : ACH.Achievement).progress (max bronze.progress p), achieved := true, tier := (({ id := (silver).id, requirement := (silver).requirement, progress := max bronze.progress p, achieved := (silver).achieved, tier := (silver).tier, nextTier := (silver).nextTier } : ACH.Achievement)).tier, nextTier := (({ id := (silver).id, requirement := (silver).requirement, progress := max bronze.progress p, achieved := (silver).achieved, tier := (silver).tier, nextTier := (silver).nextTier } : ACH.Achievement)).nextTier } : ACH.Achievement)) gId ({ id := (gold).id, requirement := (gold).requirement, progress := max ({ id := (silver).id, requirement := (silver).requirement, progress := max bronze.progress p, achieved := (silver).achieved, tier := (silver).tier, nextTier := (silver).nextTier } : ACH.Achievement).progress (max bronze.progress p), achieved := (gold).achieved, tier := (gold).tier, nextTier := (gold).nextTier } : ACH.Achievement)) gId (max ({ id := (silver).id, requirement := (silver).requirement, progress := max bronze.progress p, achieved := (silver).achieved, tier := (silver).tier, nextTier := (silver).nextTier } : ACH.Achievement).progress (max bronze.progress p)) ({ id := (gold).id, requirement := (gold).requirement, progress := max ({ id := (silver).id, requirement := (silver).requirement, progress := max bronze.progress p, achieved := (silver).achieved, tier := (silver).tier, nextTier := (silver).nextTier } : ACH.Achievement).progress (max bronze.progress p), achieved := (gold).achieved, tier := (gold).tier, nextTier := (gold).nextTier } : ACH.Achievement)
    hM2g hgach hg1req hgn
  have eAll : ACH.updateAchievement 3 m bId p = (ACH.updateA (ACH.updateA (ACH.updateA (ACH.updateA (ACH.updateA (ACH.updateA (ACH.updateA (ACH.updateA m bId ({ id := (bronze).id, requirement := (bronze).requirement, progress := max bronze.progress p, achieved := (bronze).achieved, tier := (bronze).tier, nextTier := (bronze).nextTier } : ACH.Achievement)) bId ({ id := (bronze).id, requirement := (bronze).requirement, progress := max bronze.progress p, achieved := true, tier := (bronze).tier, nextTier := (bronze).nextTier } : ACH.Achievement)) sId ({ id := (silver).id, requirement := (silver).requirement, progress := max bronze.progress p, achieved := (silver).achieved, tier := (silver).tier, nextTier := (silver).nextTier } : ACH.Achievement)) sId ({ id := (({ id := (silver).id, requirement := (silver).requirement, progress := max bronze.progress p, achieved := (silver).achieved, tier := (silver).tier, nextTier := (silver).nextTier } : ACH.Achievement)).id, requirement := (({ id := (silver).id, requirement := (silver).requirement, progress := max bronze.progress p, achieved := (silver).achieved, tier := (silver).tier, nextTier := (silver).nextTier } : ACH.Achievement)).requirement, progress := max ({ id := (silver).id, requirement := (silver).requirement, progress := max bronze.progress p, achieved := (silver).achieved, tier := (silver).tier, nextTier := (silver).nextTier } : ACH.Achievement).progress (max bronze.progress p), achieved := (({ id := (silver).id, requirement := (silver).requirement, progress := max bronze.progress p, achieved := (silver).achieved, tier := (silver).tier, nextTier := (silver).nextTier } : ACH.Achievement)).achieved, tier := (({ id := (silver).id, requirement := (silver).requirement, progress := max bronze.progress p, achieved := (silver).achieved, tier := (silver).tier, nextTier := (silver).nextTier } : ACH.Achievement)).tier, nextTier := (({ id := (silver).id, requirement := (silver).requirement, progress := max bronze.progress p, achieved := (silver).achieved, tier := (silver).tier, nextTier := (silver).nextTier } : ACH.Achievement)).nextTier } : ACH.Achievement)) sId ({ id := (({ id := (silver).id, requirement := (silver).requirement, progress := max bronze.progress p, achieved := (silver).achieved, tier := (silver).tier, nextTier := (silver).nextTier } : ACH.Achievement)).id, requirement := (({ id := (silver).id, requirement := (silver).requirement, progress := max bronze.progress p, achieved := (silver).achieved, tier := (silver).tier, nextTier := (silver).nextTier } : ACH.Achievement)).requirement, progress := max ({ id := (silver).id, requirement := (silver).requirement, progress := max bronze.progress p, achieved := (silver).achieved, tier := (silver).tier, nextTier := (silver).nextTier } : ACH.Achievement).progress (max bronze.progress p), achieved := true, tier := (({ id := (silver).id, requirement := (silver).requirement, progress := max bronze.progress p, achieved := (silver).achieved, tier := (silver).tier, nextTier := (silver).nextTier } : ACH.Achievement)).tier, nextTier := (({ id := (silver).id, requirement := (silver).requirement, progress := max bronze.progress p, achieved := (silver).achieved, tier := (silver).tier, nextTier := (silver).nextTier } : ACH.Achievement)).nextTier } : ACH.Achievement)) gId ({ id := (gold).id, requirement := (gold).requirement, progress := max ({ id := (silver).id, requirement := (silver).requirement, progress := max bronze.progress p, achieved := (silver).achieved, tier := (silver).tier, nextTier := (silver).nextTier } : ACH.Achievement).progress (max bronze.progress p), achieved := (gold).achieved, tier := (gold).tier, nextTier := (gold).nextTier } : ACH.Achievement)) gId ({ id := (({ id := (gold).id, requirement := (gold).requirement, progress := max ({ id := (silver).id, requirement := (silver).requirement, progress := max bronze.progress p, achieved := (silver).achieved, tier := (silver).tier, nextTier := (silver).nextTier } : ACH.Achievement).progress (max bronze.progress p), achieved := (gold).achieved, tier := (gold).tier, nextTier := (gold).nextTier } : ACH.Achievement)).id, requirement := (({ id := (gold).id, requirement := (gold).requirement, progress := max ({ id := (silver).id, requirement := (silver).requirement, progress := max bronze.progress p, achieved := (silver).achieved, tier := (silver).tier, nextTier := (silver).nextTier } : ACH.Achievement).progress (max bronze.progress p), achieved := (gold).achieved, tier := (gold).tier, nextTier := (gold).nextTier } : ACH.Achievement)).requirement, progress := max ({ id := (gold).id, requirement := (gold).requirement, progress := max ({ id := (silver).id, requirement := (silver).requirement, progress := max bronze.progress p, achieved := (silver).achieved, tier := (silver).tier, nextTier := (silver).nextTier } : ACH.Achievement).progress (max bronze.progress p), achieved := (gold).achieved, tier := (gold).tier, nextTier := (gold).nextTier } : ACH.Achievement).progress (max ({ id := (silver).id, requirement := (silver).requirement, progress := max bronze.progress p, achieved := (silver).achieved, tier := (silver).tier, nextTier := (silver).nextTier } : ACH.Achievement).progress (max bronze.progress p)), achieved := (({ id := (gold).id, requirement := (gold).requirement, progress := max ({ id := (silver).id, requirement := (silver).requirement, progress := max bronze.progress p, achieved := (silver).achieved, tier := (silver).tier, nextTier := (silver).nextTier } : ACH.Achievement).progress (max bronze.progress p), achieved := (gold).achieved, tier := (gold).tier, nextTier := (gold).nextTier } : ACH.Achievement)).achieved, tier := (({ id := (gold).id, requirement := (gold).requirement, progress := max ({ id := (silver).id, requirement := (silver).requirement, progress := max bronze.progress p, achieved := (silver).achieved, tier := (silver).tier, nextTier := (silver).nextTier } : ACH.Achievement).progress (max bronze.progress p), achieved := (gold).achieved, tier := (gold).tier, nextTier := (gold).nextTier } : ACH.Achievement)).tier, nextTier := (({ id := (gold).id, requirement := (gold).requirement, progress := max ({ id := (silver).id, requirement := (silver).requirement, progress := max bronze.progress p, achieved := (silver).achieved, tier := (silver).tier, nextTier := (silver).nextTier } : ACH.Achievement).progress (max bronze.progress p), achieved := (gold).achieved, tier := (gold).tier, nextTier := (gold).nextTier } : ACH.Achievement)).nextTier } : ACH.Achievement)) gId ({ id := (({ id := (gold).id, requirement := (gold).requirement, progress := max ({ id := (silver).id, requirement := (silver).requirement, progress := max bronze.progress p, achieved := (silver).achieved, tier := (silver).tier, nextTier := (silver).nextTier } : ACH.Achievement).progress (max bronze.progress p), achieved := (gold).achieved, tier := (gold).tier, nextTier := (gold).nextTier } : ACH.Achievement)).id, requirement := (({ id := (gold).id, requirement := (gold).requirement, progress := max ({ id := (silver).id, requirement := (silver).requirement, progress := max bronze.progress p, achieved := (silver).achieved, tier := (silver).tier, nextTier := (silver).nextTier } : ACH.Achievement).progress (max bronze.progress p), achieved := (gold).achieved, tier := (gold).tier, nextTier := (gold).nextTier } : ACH.Achievement)).requirement, progress := max ({ id := (gold).id, requirement := (gold).requirement, progress := max ({ id := (silver).id, requirement := (silver).requirement, progress := max bronze.progress p, achieved := (silver).achieved, tier := (silver).tier, nextTier := (silver).nextTier } : ACH.Achievement).progress (max bronze.progress p), achieved := (gold).achieved, tier := (gold).tier, nextTier := (gold).nextTier } : ACH.Achievement).progress (max ({ id := (silver).id, requirement := (silver).requirement, progress := max bronze.progress p, achieved := (silver).achieved, tier := (silver).tier, nextTier := (silver).nextTier } : ACH.Achievement).progress (max bronze.progress p)), achieved := true, tier := (({ id := (gold).id, requirement := (gold).requirement, progress := max ({ id := (silver).id, requirement := (silver).requirement, progress := max bronze.progress p, achieved := (silver).achieved, tier := (silver).tier, nextTier := (silver).nextTier } : ACH.Achievement).progress (max bronze.progress p), achieved := (gold).achieved, tier := (gold).tier, nextTier := (gold).nextTier } : ACH.Achievement)).tier, nextTier := (({ id := (gold).id, requirement := (gold).requirement, progress := max ({ id := (silver).id, requirement := (silver).requirement, progress := max bronze.progress p, achieved := (silver).achieved, tier := (silver).tier, nextTier := (silver).nextTier } : ACH.Achievement).progress (max bronze.progress p), achieved := (gold).achieved, tier := (gold).tier, nextTier := (gold).nextTier } : ACH.Achievement)).nextTier } : ACH.Achievement)) := by
    rw [show (3 : ℕ) = 2 + 1 from rfl, e1, show (2 : ℕ) = 1 + 1 from rfl, e2,
      show (1 : ℕ) = 0 + 1 from rfl, e3]
  refine ⟨?_, ?_, ?_⟩ <;> rw [eAll] <;> simp only [ACH.achievedAt]
  · rw [ACH.lookupBy_updateA_other gId bId _ hbg,
      ACH.lookupBy_updateA_other gId bId _ hbg,
      ACH.lookupBy_updateA_other gId bId _ hbg,
      ACH.lookupBy_updateA_other sId bId _ hbs,
      ACH.lookupBy_updateA_other sId bId _ hbs,
      ACH.lookupBy_updateA_other sId bId _ hbs,
      ACH.lookupBy_updateA_self bId ({ id := (bronze).id, requirement := (bronze).requirement, progress := max bronze.progress p, achieved := true, tier := (bronze).tier, nextTier := (bronze).nextTier } : ACH.Achievement) _ ({ id := (bronze).id, requirement := (bronze).requirement, progress := max bronze.progress p, achieved := (bronze).achieved, tier := (bronze).tier, nextTier := (bronze).nextTier } : ACH.Achievement)
        (ACH.lookupBy_updateA_self bId ({ id := (bronze).id, requirement := (bronze).requirement, progress := max bronze.progress p, achieved := (bronze).achieved, tier := (bronze).tier, nextTier := (bronze).nextTier } : ACH.Achievement) _ bronze hb)]
    rfl
  · rw [ACH.lookupBy_updateA_other gId sId _ hsg,
      ACH.lookupBy_updateA_other gId sId _ hsg,
      ACH.lookupBy_updateA_other gId sId _ hsg,
      ACH.lookupBy_updateA_self sId ({ id := (({ id := (silver).id, requirement := (silver).requirement, progress := max bronze.progress p, achieved := (silver).achieved, tier := (silver).tier, nextTier := (silver).nextTier } : ACH.Achievement)).id, requirement := (({ id := (silver).id, requirement := (silver).requirement, progress := max bronze.progress p, achieved := (silver).achieved, tier := (silver).tier, nextTier := (silver).nextTier } : ACH.Achievement)).requirement, progress := max ({ id := (silver).id, requirement := (silver).requirement, progress := max bronze.progress p, achieved := (silver).achieved, tier := (silver).tier, nextTier := (silver).nextTier } : ACH.Achievement).progress (max bronze.progress p), achieved := true, tier := (({ id := (silver).id, requirement := (silver).requirement, progress := max bronze.progress p, achieved := (silver).achieved, tier := (silver).tier, nextTier := (silver).nextTier } : ACH.Achievement)).tier, nextTier := (({ id := (silver).id, requirement := (silver).requirement, progress := max bronze.progress p, achieved := (silver).achieved, tier := (silver).tier, nextTier := (silver).nextTier } : ACH.Achievement)).nextTier } : ACH.Achievement) _ ({ id := (({ id := (silver).id, requirement := (silver).requirement, progress := max bronze.progress p, achieved := (silver).achieved, tier := (silver).tier, nextTier := (silver).nextTier } : ACH.Achievement)).id, requirement := (({ id := (silver).id, requirement := (silver).requirement, progress := max bronze.progress p, achieved := (silver).achieved, tier := (silver).tier, nextTier := (silver).nextTier } : ACH.Achievement)).requirement, progress := max ({ id := (silver).id, requirement := (silver).requirement, progress := max bronze.progress p, achieved := (silver).achieved, tier := (silver).tier, nextTier := (silver).nextTier } : ACH.Achievement).progress (max bronze.progress p), achieved := (({ id := (silver).id, requirement := (silver).requirement, progress := max bronze.progress p, achieved := (silver).achieved, tier := (silver).tier, nextTier := (silver).nextTier } : ACH.Achievement)).achieved, tier := (({ id := (silver).id, requirement := (silver).requirement, progress := max bronze.progress p, achieved := (silver).achieved, tier := (silver).tier, nextTier := (silver).nextTier } : ACH.Achievement)).tier, nextTier := (({ id := (silver).id, requirement := (silver).requirement, progress := max bronze.progress p, achieved := (silver).achieved, tier := (silver).tier, nextTier := (silver).nextTier } : ACH.Achievement)).nextTier } : ACH.Achievement)
        (ACH.lookupBy_updateA_self sId ({ id := (({ id := (silver).id, requirement := (silver).requirement, progress := max bronze.progress p, achieved := (silver).achieved, tier := (silver).tier, nextTier := (silver).nextTier } : ACH.Achievement)).id, requirement := (({ id := (silver).id, requirement := (silver).requirement, progress := max bronze.progress p, achieved := (silver).achieved, tier := (silver).tier, nextTier := (silver).nextTier } : ACH.Achievement)).requirement, progress := max ({ id := (silver).id, requirement := (silver).requirement, progress := max bronze.progress p, achieved := (silver).achieved, tier := (silver).tier, nextTier := (silver).nextTier } : ACH.Achievement).progress (max bronze.progress p), achieved := (({ id := (silver).id, requirement := (silver).requirement, progress := max bronze.progress p, achieved := (silver).achieved, tier := (silver).tier, nextTier := (silver).nextTier } : ACH.Achievement)).achieved, tier := (({ id := (silver).id, requirement := (silver).requirement, progress := max bronze.progress p, achieved := (silver).achieved, tier := (silver).tier, nextTier := (silver).nextTier } : ACH.Achievement)).tier, nextTier := (({ id := (silver).id, requirement := (silver).requirement, progress := max bronze.progress p, achieved := (silver).achieved, tier := (silver).tier, nextTier := (silver).nextTier } : ACH.Achievement)).nextTier } : ACH.Achievement) _ ({ id := (silver).id, requirement := (silver).requirement, progress := max bronze.progress p, achieved := (silver).achieved, tier := (silver).tier, nextTier := (silver).nextTier } : ACH.Achievement) hM1s)]
    rfl
  · rw [ACH.lookupBy_updateA_self gId ({ id := (({ id := (gold).id, requirement := (gold).requirement, progress := max ({ id := (silver).id, requirement := (silver).requirement, progress := max bronze.progress p, achieved := (silver).achieved, tier := (silver).tier, nextTier := (silver).nextTier } : ACH.Achievement).progress (max bronze.progress p), achieved := (gold).achieved, tier := (gold).tier, nextTier := (gold).nextTier } : ACH.Achievement)).id, requirement := (({ id := (gold).id, requirement := (gold).requirement, progress := max ({ id := (silver).id, requirement := (silver).requirement, progress := max bronze.progress p, achieved := (silver).achieved, tier := (silver).tier, nextTier := (silver).nextTier } : ACH.Achievement).progress (max bronze.progress p), achieved := (gold).achieved, tier := (gold).tier, nextTier := (gold).nextTier } : ACH.Achievement)).requirement, progress := max ({ id := (gold).id, requirement := (gold).requirement, progress := max ({ id := (silver).id, requirement := (silver).requirement, progress := max bronze.progress p, achieved := (silver).achieved, tier := (silver).tier, nextTier := (silver).nextTier } : ACH.Achievement).progress (max bronze.progress p), achieved := (gold).achieved, tier := (gold).tier, nextTier := (gold).nextTier } : ACH.Achievement).progress (max ({ id := (silver).id, requirement := (silver).requirement, progress := max bronze.progress p, achieved := (silver).achieved, tier := (silver).tier, nextTier := (silver).nextTier } : ACH.Achievement).progress (max bronze.progress p)), achieved := true, tier := (({ id := (gold).id, requirement := (gold).requirement, progress := max ({ id := (silver).id, requirement := (silver).requirement, progress := max bronze.progress p, achieved := (silver).achieved, tier := (silver).tier, nextTier := (silver).nextTier } : ACH.Achievement).progress (max bronze.progress p), achieved := (gold).achieved, tier := (gold).tier, nextTier := (gold).nextTier } : ACH.Achievement)).tier, nextTier := (({ id := (gold).id, requirement := (gold).requirement, progress := max ({ id := (silver).id, requirement := (silver).requirement, progress := max bronze.progress p, achieved := (silver).achieved, tier := (silver).tier, nextTier := (silver).nextTier } : ACH.Achievement).progress (max bronze.progress p), achieved := (gold).achieved, tier := (gold).tier, nextTier := (gold).nextTier } : ACH.Achievement)).nextTier } : ACH.Achievement) _ ({ id := (({ id := (gold).id, requirement := (gold).requirement, progress := max ({ id := (silver).id, requirement := (silver).requirement, progress := max bronze.progress p, achieved := (silver).achieved, tier := (silver).tier, nextTier := (silver).nextTier } : ACH.Achievement).progress (max bronze.progress p), achieved := (gold).achieved, tier := (gold).tier, nextTier := (gold).nextTier } : ACH.Achievement)).id, requirement := (({ id := (gold).id, requirement := (gold).requirement, progress := max ({ id := (silver).id, requirement := (silver).requirement, progress := max bronze.progress p, achieved := (silver).achieved, tier := (silver).tier, nextTier := (silver).nextTier } : ACH.Achievement).progress (max bronze.progress p), achieved := (gold).achieved, tier := (gold).tier, nextTier := (gold).nextTier } : ACH.Achievement)).requirement, progress := max ({ id := (gold).id, requirement := (gold).requirement, progress := max ({ id := (silver).id, requirement := (silver).requirement, progress := max bronze.progress p, achieved := (silver).achieved, tier := (silver).tier, nextTier := (silver).nextTier } : ACH.Achievement).progress (max bronze.progress p), achieved := (gold).achieved, tier := (gold).tier, nextTier := (gold).nextTier } : ACH.Achievement).progress (max ({ id := (silver).id, requirement := (silver).requirement, progress := max bronze.progress p, achieved := (silver).achieved, tier := (silver).tier, nextTier := (silver).nextTier } : ACH.Achievement).progress (max bronze.progress p)), achieved := (({ id := (gold).id, requirement := (gold).requirement, progress := max ({ id := (silver).id, requirement := (silver).requirement, progress := max bronze.progress p, achieved := (silver).achieved, tier := (silver).tier, nextTier := (silver).nextTier } : ACH.Achievement).progress (max bronze.progress p), achieved := (gold).achieved, tier := (gold).tier, nextTier := (gold).nextTier } : ACH.Achievement)).achieved, tier := (({ id := (gold).id, requirement := (gold).requirement, progress := max ({ id := (silver).id, requirement := (silver).requirement, progress := max bronze.progress p, achieved := (silver).achieved, tier := (silver).tier, nextTier := (silver).nextTier } : ACH.Achievement).progress (max bronze.progress p), achieved := (gold).achieved, tier := (gold).tier, nextTier := (gold).nextTier } : ACH.Achievement)).tier, nextTier := (({ id := (gold).id, requirement := (gold).requirement, progress := max ({ id := (silver).id, requirement := (silver).requirement, progress := max bronze.progress p, achieved := (silver).achieved, tier := (silver).tier, nextTier := (silver).nextTier } : ACH.Achievement).progress (max bronze.progress p), achieved := (gold).achieved, tier := (gold).tier, nextTier := (gold).nextTier } : ACH.Achievement)).nextTier } : ACH.Achievement)
        (ACH.lookupBy_updateA_self gId ({ id := (({ id := (gold).id, requirement := (gold).requirement, progress := max ({ id := (silver).id, requirement := (silver).requirement, progress := max bronze.progress p, achieved := (silver).achieved, tier := (silver).tier, nextTier := (silver).nextTier } : ACH.Achievement).progress (max bronze.progress p), achieved := (gold).achieved, tier := (gold).tier, nextTier := (gold).nextTier } : ACH.Achievement)).id, requirement := (({ id := (gold).id, requirement := (gold).requirement, progress := max ({ id := (silver).id, requirement := (silver).requirement, progress := max bronze.progress p, achieved := (silver).achieved, tier := (silver).tier, nextTier := (silver).nextTier } : ACH.Achievement).progress (max bronze.progress p), achieved := (gold).achieved, tier := (gold).tier, nextTier := (gold).nextTier } : ACH.Achievement)).requirement, progress := max ({ id := (gold).id, requirement := (gold).requirement, progress := max ({ id := (silver).id, requirement := (silver).requirement, progress := max bronze.progress p, achieved := (silver).achieved, tier := (silver).tier, nextTier := (silver).nextTier } : ACH.Achievement).progress (max bronze.progress p), achieved := (gold).achieved, tier := (gold).tier, nextTier := (gold).nextTier } : ACH.Achievement).progress (max ({ id := (silver).id, requirement := (silver).requirement, progress := max bronze.progress p, achieved := (silver).achieved, tier := (silver).tier, nextTier := (silver).nextTier } : ACH.Achievement).progress (max bronze.progress p)), achieved := (({ id := (gold).id, requirement := (gold).requirement, progress := max ({ id := (silver).id, requirement := (silver).requirement, progress := max bronze.progress p, achieved := (silver).achieved, tier := (silver).tier, nextTier := (silver).nextTier } : ACH.Achievement).progress (max bronze.progress p), achieved := (gold).achieved, tier := (gold).tier, nextTier := (gold).nextTier } : ACH.Achievement)).achieved, tier := (({ id := (gold).id, requirement := (gold).requirement, progress := max ({ id := (silver).id, requirement := (silver).requirement, progress := max bronze.progress p, achieved := (silver).achieved, tier := (silver).tier, nextTier := (silver).nextTier } : ACH.Achievement).progress (max bronze.progress p), achieved := (gold).achieved, tier := (gold).tier, nextTier := (gold).nextTier } : ACH.Achievement)).tier, nextTier := (({ id := (gold).id, requirement := (gold).requirement, progress := max ({ id := (silver).id, requirement := (silver).requirement, progress := max bronze.progress p, achieved := (silver).achieved, tier := (silver).tier, nextTier := (silver).nextTier } : ACH.Achievement).progress (max bronze.progress p), achieved := (gold).achieved, tier := (gold).tier, nextTier := (gold).nextTier } : ACH.Achievement)).nextTier } : ACH.Achievement) _ ({ id := (gold).id, requirement := (gold).requirement, progress := max ({ id := (silver).id, requirement := (silver).requirement, progress := max bronze.progress p, achieved := (silver).achieved, tier := (silver).tier, nextTier := (silver).nextTier } : ACH.Achievement).progress (max bronze.progress p), achieved := (gold).achieved, tier := (gold).tier, nextTier := (gold).nextTier } : ACH.Achievement) hM2g)]
    rfl

/-- The brittle_master bronze tier from `initializeAchievements` (20/50/100). -/
def bronzeC7 : ACH.Achievement :=
  { id := "brittle_master_bronze", requirement := 20, progress := 0,
    achieved := false, tier := some "bronze",
    nextTier := some "brittle_master_silver" }

def silverC7 : ACH.Achievement :=
  { id := "brittle_master_silver", requirement := 50, progress := 0,
    achieved := false, tier := some "silver",
    nextTier := some "brittle_master_gold" }

def goldC7 : ACH.Achievement :=
  { id := "brittle_master_gold", requirement := 100, progress := 0,
    achieved := false, tier := some "gold", nextTier := none }

/-- The brittle_master family as stored in the achievements map. -/
def brittleFamilyC7 : ACH.AchMap :=
  [("brittle_master_bronze", bronzeC7),
   ("brittle_master_silver", silverC7),
   ("brittle_master_gold", goldC7)]

/-- Witness for C7: reporting progress 100 (the gold requirement) to the
bronze brittle_master achievement achieves all three tiers in one update. -/
theorem C7_tier_cascade_witness :
    ACH.achievedAt (ACH.updateAchievement 3 brittleFamilyC7 "brittle_master_bronze" 100)
        "brittle_master_bronze" = true ∧
    ACH.achievedAt (ACH.updateAchievement 3 brittleFamilyC7 "brittle_master_bronze" 100)
        "brittle_master_silver" = true ∧
    ACH.achievedAt (ACH.updateAchievement 3 brittleFamilyC7 "brittle_master_bronze" 100)
        "brittle_master_gold" = true :=
  C7_tier_cascade brittleFamilyC7 "brittle_master_bronze" "brittle_master_silver"
    "brittle_master_gold" bronzeC7 silverC7 goldC7 100
    (by decide) (by decide) (by decide) (by decide) (by decide) (by decide)
    (by decide) (by decide) (by decide) (by decide) (by decide) (by decide)
    (by decide) (by decide) (by decide)

namespace CS

/-- Embeds `setGlobalEffectMultiplier(value)` (CombatSystem line 994). -/
def setGlobalEffectMultiplier (st : State) (v : ℚ) : State :=
  { st with globalEffectMultiplier := v }

/-- Embeds `setStatusSpreadRadius(value)`. -/
def setStatusSpreadRadius (st : State) (v : ℚ) : State :=
  { st with statusSpreadRadius := v }

/-- Embeds `setComboDurationMultiplier(value)`. -/
def setComboDurationMultiplier (st : State) (v : ℚ) : State :=
  { st with comboDurationMultiplier := v }

/-- Embeds `addPermanentDamageBonus(multiplier)`: multiplies the global effect
multiplier in place. -/
def addPermanentDamageBonus (st : State) (m : ℚ) : State :=
  { st with globalEffectMultiplier := st.globalEffectMultiplier * m }

/-- Embeds `addPermanentRangeBonus(multiplier)`. -/
def addPermanentRangeBonus (st : State) (m : ℚ) : State :=
  { st with statusSpreadRadius := st.statusSpreadRadius * m }

/-- Embeds `addPermanentSpeedBonus(multiplier)`. -/
def addPermanentSpeedBonus (st : State) (m : ℚ) : State :=
  { st with comboDurationMultiplier := st.comboDurationMultiplier * m }

/-- Embeds `addPermanentComboBonus(multiplier)`. -/
def addPermanentComboBonus (st : State) (m : ℚ) : State :=
  { st with
    brittleMultiplier := st.brittleMultiplier * m
    explosionRadiusMultiplier := st.explosionRadiusMultiplier * m
    frozenDurationMultiplier := st.frozenDurationMultiplier * m }

end CS

/-! ## AchievementChallenges (src/unnamed/part_009) -/

namespace CH

/-- A challenge reward `{type, multiplier, duration}`. -/
structure Reward where
  rtype : String
  multiplier : ℚ
  duration : ℚ
  deriving Repr, DecidableEq

/-- The slice of a `Challenge` that the reward paths read. -/
structure Challenge where
  id : String
  reward : Option Reward := none
  deriving Repr, DecidableEq

/-- Embeds `applyPermanentChainReward(effect)` (part_009 lines 1166–1184): routes a
permanent effect of a chain achievement into the CombatSystem `addPermanent*`
multipliers (`resources` is a no-op inside CombatSystem). -/
def applyPermanentChainReward (st : CS.State) (etype : String) (m : ℚ) :
    CS.State :=
  if etype = "damage" then CS.addPermanentDamageBonus st m
  else if etype = "range" then CS.addPermanentRangeBonus st m
  else if etype = "speed" then CS.addPermanentSpeedBonus st m
  else if etype = "resources" then st
  else if etype = "combo" then CS.addPermanentComboBonus st m
  else st

/-- Embeds `expireReward(challenge)` (part_009 lines 1583–1605): resets the affected
multiplier to its neutral value — an absolute reset, not an undo of the
contribution made by the challenge itself. -/
def expireReward (st : CS.State) (ch : Challenge) : CS.State :=
  match ch.reward with
  | none => st
  | some r =>
    if r.rtype = "damage" ∨ r.rtype = "combo" then
      CS.setGlobalEffectMultiplier st 1
    else if r.rtype = "range" then CS.setStatusSpreadRadius st 0
    else if r.rtype = "speed" then CS.setComboDurationMultiplier st 1
    else st

/-- A neutral CombatSystem multiplier state. -/
def baseC10 : CS.State :=
  { entities := [], frozenDamageMultiplier := 1, statusSpreadRadius := 0,
    globalEffectMultiplier := 1, comboDurationMultiplier := 1,
    damageRewardActive := false, damageRewardMultiplier := 1,
    comboRewardActive := false, comboRewardMultiplier := 1,
    grandMasterActive := false, now := 0 }

/-- A completed time-boxed challenge holding a damage-type reward. -/
def chC10 : Challenge :=
  { id := "combo_challenge_normal",
    reward := some { rtype := "damage", multiplier := 2, duration := 60 } }

end CH

/-- Claim C10 fails on the code (code bug): a chain-level permanent damage
bonus multiplies `globalEffectMultiplier` (here 1 → 3/2), but when any
damage- or combo-type challenge reward later expires, `expireReward` resets
`globalEffectMultiplier` to the absolute value 1.0, discarding the permanent
bonus — the multiplier ends below the value the permanent bonus established,
for every prior state and bonus, not just this one. -/
theorem C10_permanent_bonus_clobbered :
    (CH.applyPermanentChainReward CH.baseC10 "damage" (3/2)).globalEffectMultiplier =
      3/2 ∧
    (CH.expireReward (CH.applyPermanentChainReward CH.baseC10 "damage" (3/2))
        CH.chC10).globalEffectMultiplier = 1 ∧
    (1 : ℚ) < 3/2 ∧
    (∀ (st : CS.State) (m : ℚ),
      (CH.expireReward (CS.addPermanentDamageBonus st m)
        CH.chC10).globalEffectMultiplier = 1) := by
  refine ⟨?_, ?_, by norm_num, ?_⟩
  · simp [CH.applyPermanentChainReward, CS.addPermanentDamageBonus, CH.baseC10]
  · simp [CH.expireReward, CH.chC10, CS.setGlobalEffectMultiplier]
  · intro st m
    simp [CH.expireReward, CH.chC10, CS.setGlobalEffectMultiplier]
